import Mathlib

/-!
Verification development for the econet24 → MQTT bridge
(`econet24-addon/econet24_mqtt_bridge.py`).

The poll cycle `_poll_and_publish` is shallowly embedded as a pure function
from the data fetched from the cloud API to the sequence of MQTT messages
it emits (discovery documents, value messages) together with the updated
in-process bridge state (the `_discovery_published` set).  Python values
are modelled by `PyVal`; Python floats and ints are modelled as exact
rationals.  Exceptions raised by the two cloud fetches are modelled by
`FetchResult`; exceptions raised inside a cycle are modelled by the
`Option PyExc` component threaded through the cycle.
-/

/-- Model of a Python/JSON value as it appears in the API documents.
Python ints and floats are both modelled as exact rationals (`num`). -/
inductive PyVal where
  | none : PyVal
  | bool : Bool → PyVal
  | num : ℚ → PyVal
  | str : String → PyVal
  | list : List PyVal → PyVal

/-- Models the Python test `value is None`. -/
def PyVal.isNone : PyVal → Bool
  | .none => true
  | _ => false

/-- Python truthiness, as used by `if not is_visible`. -/
def PyVal.truthy : PyVal → Bool
  | .none => false
  | .bool b => b
  | .num q => q != 0
  | .str s => s != ""
  | .list xs => !xs.isEmpty

/-- Models the Python comparison `value == 999.0` (the "sensor not
connected" sentinel).  Only numbers compare equal to `999.0`; Python
booleans equal `1`/`0`, never `999`. -/
def isSentinel : PyVal → Bool
  | .num q => q == 999
  | _ => false

/-- Numeric coercion used by Python arithmetic: ints/floats are numbers,
booleans act as `1`/`0`; every other operand raises `TypeError`. -/
def PyVal.toNumQ : PyVal → Option ℚ
  | .num q => some q
  | .bool b => some (if b then 1 else 0)
  | _ => Option.none

/-- Approximate rendering of a rational, standing in for Python float/int
`str()`.  Only the distinction empty-vs-nonempty payload is load-bearing
in the specification. -/
def ratStr (q : ℚ) : String :=
  toString q.num ++ (if q.den = 1 then "" else "/" ++ toString q.den)

/-- Models Python `str(value)` (approximately, for numbers and lists). -/
def pyStr : PyVal → String
  | .none => "None"
  | .bool b => if b then "True" else "False"
  | .num q => ratStr q
  | .str s => s
  | .list _ => "[...]"

/-- Models the payload computation of `_publish_sensor_value`:
`"" if value is None else str(value)`. -/
def publishPayload (v : PyVal) : String :=
  match v with
  | .none => ""
  | v => pyStr v

/-! Model of Python `float(s)` on strings: optional sign, decimal digits
with an optional fractional part and an optional exponent, surrounded by
optional ASCII whitespace.  (`inf`/`nan` and digit-group underscores are
not modelled; for those the model reports a parse failure.) -/

/-- Value of a list of decimal digit characters. -/
def natOfDigits (l : List Char) : ℕ :=
  l.foldl (fun n c => n * 10 + (c.toNat - 48)) 0

/-- Consume an optional leading sign; returns (negative?, rest). -/
def parseSign : List Char → Bool × List Char
  | '-' :: cs => (true, cs)
  | '+' :: cs => (false, cs)
  | cs => (false, cs)

/-- Split a leading run of decimal digits from the rest. -/
def splitDigits (l : List Char) : List Char × List Char :=
  (l.takeWhile Char.isDigit, l.dropWhile Char.isDigit)

/-- Models Python `float(s)` for finite decimal literals. -/
def pyFloatOfString (s : String) : Option ℚ :=
  let t := ((s.data.dropWhile Char.isWhitespace).reverse.dropWhile Char.isWhitespace).reverse
  let sg := parseSign t
  let ip := splitDigits sg.2
  let fp :=
    match ip.2 with
    | '.' :: rest => splitDigits rest
    | rest => (([] : List Char), rest)
  if ip.1 = [] ∧ fp.1 = [] then Option.none
  else
    let mant : ℚ := (natOfDigits ip.1 : ℚ) + (natOfDigits fp.1 : ℚ) / ((10 : ℚ) ^ fp.1.length)
    let signed : ℚ := if sg.1 then -mant else mant
    match fp.2 with
    | [] => some signed
    | e :: rest =>
      if e = 'e' ∨ e = 'E' then
        let esg := parseSign rest
        let ep := splitDigits esg.2
        if ep.1 = [] ∨ ep.2 ≠ [] then Option.none
        else
          let ex : ℤ := if esg.1 then -(natOfDigits ep.1 : ℤ) else (natOfDigits ep.1 : ℤ)
          some (signed * (10 : ℚ) ^ ex)
      else Option.none

/-- Models the value coercion in the information-parameter decoder:
`float(value)` is attempted on strings, retaining the original string on
`ValueError`; non-strings pass through unchanged. -/
def coerceValue : PyVal → PyVal
  | .str s =>
    match pyFloatOfString s with
    | some q => .num q
    | Option.none => .str s
  | v => v

/-- Round a rational to the nearest integer, ties to even (the rounding
used by Python's `round`). -/
def roundHalfEven (q : ℚ) : ℤ :=
  let f := ⌊q⌋
  let r := q - f
  if r < 1/2 then f
  else if 1/2 < r then f + 1
  else if f % 2 = 0 then f else f + 1

/-- Models Python `round(x, 1)` on the exact-rational model of floats. -/
def pyRound1 (q : ℚ) : ℚ := (roundHalfEven (q * 10) : ℚ) / 10

/-! Slugification, `slugify` in the source:
lower-case, strip whitespace, replace each maximal run of characters
outside `[a-z0-9]` by a single underscore, collapse underscore runs,
strip leading/trailing underscores.  `str.lower`/`str.strip` are modelled
on the ASCII range; the subsequent regex replaces every character outside
`[a-z0-9]` anyway. -/

/-- Is `c` in the regex class `[a-z0-9]`? -/
def isLowerAlnum (c : Char) : Bool :=
  ('a' ≤ c && c ≤ 'z') || ('0' ≤ c && c ≤ '9')

/-- Models `str.lower` per character (ASCII range). -/
def pyLowerChar (c : Char) : Char :=
  if 'A' ≤ c ∧ c ≤ 'Z' then Char.ofNat (c.toNat + 32) else c

/-- Models `text.strip()`: drop whitespace from both ends. -/
def stripWs (l : List Char) : List Char :=
  ((l.dropWhile Char.isWhitespace).reverse.dropWhile Char.isWhitespace).reverse

/-- Models `re.sub(r'[^a-z0-9]+', '_', text)`: each maximal run of
characters outside `[a-z0-9]` becomes one underscore.  The flag records
whether the scan is currently inside such a run. -/
def subNonAlnum : Bool → List Char → List Char
  | _, [] => []
  | inRun, c :: cs =>
    if isLowerAlnum c then c :: subNonAlnum false cs
    else if inRun then subNonAlnum true cs
    else '_' :: subNonAlnum true cs

/-- Models `re.sub(r'_+', '_', text)`: collapse runs of underscores.  The
flag records whether the previously emitted character was an underscore
of a run being collapsed. -/
def collapseUnd : Bool → List Char → List Char
  | _, [] => []
  | prev, c :: cs =>
    if c = '_' then
      if prev then collapseUnd true cs else '_' :: collapseUnd true cs
    else c :: collapseUnd false cs

/-- Models `text.strip('_')` on the trailing side. -/
def rstripUnd : List Char → List Char
  | [] => []
  | c :: cs =>
    match rstripUnd cs with
    | [] => if c = '_' then [] else [c]
    | r => c :: r

/-- Models `text.strip('_')`. -/
def stripUnd (l : List Char) : List Char :=
  rstripUnd (l.dropWhile (fun c => c = '_'))

/-- The `slugify` function of the source, a pure function of its input. -/
def slugify (s : String) : String :=
  String.mk (stripUnd (collapseUnd false (subNonAlnum false (stripWs (s.data.map pyLowerChar)))))

/-- Presentation metadata of one sensor (an entry of `SENSOR_DEFINITIONS`). -/
structure SensorDef where
  name : String
  device_class : Option String
  unit : Option String
  icon : Option String
  deriving DecidableEq, Repr

/-- The generated definition used for keys absent from
`SENSOR_DEFINITIONS` (the `generic_def` literal in `_poll_and_publish`). -/
def genericDef (key : String) : SensorDef :=
  ⟨key, Option.none, Option.none, some "mdi:information"⟩
/-- Part 1 of the `SENSOR_DEFINITIONS` table. -/
def SENSOR_DEFS_1 : List (String × SensorDef) := [
  ("GrantOutgoingTemp", ⟨"Heat Pump Flow Temperature", some "temperature", some "°C", some "mdi:thermometer"⟩),
  ("GrantReturnTemp", ⟨"Heat Pump Return Temperature", some "temperature", some "°C", some "mdi:thermometer"⟩),
  ("GrantOutdoorTemp", ⟨"Heat Pump Outdoor Temperature", some "temperature", some "°C", some "mdi:thermometer"⟩),
  ("GrantCompressorFreq", ⟨"Compressor Frequency", Option.none, some "Hz", some "mdi:sine-wave"⟩),
  ("GrantPumpSpeed", ⟨"Pump Speed", Option.none, some "RPM", some "mdi:pump"⟩),
  ("GrantWorkState", ⟨"Heat Pump Work State", Option.none, Option.none, some "mdi:heat-pump"⟩),
  ("GrantFlow", ⟨"Heat Pump Flow Rate", Option.none, some "L/min", some "mdi:water-pump"⟩),
  ("GrantPower", ⟨"Heat Pump Power", some "power", some "W", some "mdi:flash"⟩),
  ("GrantCOP", ⟨"Coefficient of Performance", Option.none, Option.none, some "mdi:chart-line"⟩),
  ("TempWthr", ⟨"Weather Temperature", some "temperature", some "°C", some "mdi:weather-partly-cloudy"⟩),
  ("TempCWU", ⟨"Hot Water Temperature", some "temperature", some "°C", some "mdi:water-boiler"⟩),
  ("TempBuforUp", ⟨"Buffer Tank Top Temperature", some "temperature", some "°C", some "mdi:storage-tank"⟩),
  ("TempBuforDown", ⟨"Buffer Tank Bottom Temperature", some "temperature", some "°C", some "mdi:storage-tank"⟩),
  ("TempClutch", ⟨"Clutch Temperature", some "temperature", some "°C", some "mdi:thermometer"⟩),
  ("TempCircuit1", ⟨"Circuit 1 Temperature", some "temperature", some "°C", some "mdi:thermometer"⟩),
  ("TempCircuit2", ⟨"Circuit 2 Temperature", some "temperature", some "°C", some "mdi:thermometer"⟩),
  ("TempCircuit3", ⟨"Circuit 3 Temperature", some "temperature", some "°C", some "mdi:thermometer"⟩),
  ("TempFeeder", ⟨"Feeder Temperature", some "temperature", some "°C", some "mdi:thermometer"⟩),
  ("TempExhaust", ⟨"Exhaust Temperature", some "temperature", some "°C", some "mdi:thermometer"⟩),
  ("TempRoom", ⟨"Room Temperature", some "temperature", some "°C", some "mdi:home-thermometer"⟩),
  ("TempOutdoor", ⟨"Outdoor Temperature", some "temperature", some "°C", some "mdi:thermometer"⟩),
  ("TempReturn", ⟨"Return Temperature", some "temperature", some "°C", some "mdi:thermometer"⟩),
  ("TempSupply", ⟨"Supply Temperature", some "temperature", some "°C", some "mdi:thermometer"⟩),
  ("TempFlue", ⟨"Flue Temperature", some "temperature", some "°C", some "mdi:thermometer"⟩),
  ("TempBoiler", ⟨"Boiler Temperature", some "temperature", some "°C", some "mdi:thermometer"⟩),
  ("tempZasilanie", ⟨"Supply Temperature", some "temperature", some "°C", some "mdi:thermometer"⟩),
  ("tempPowrot", ⟨"Return Temperature", some "temperature", some "°C", some "mdi:thermometer"⟩),
  ("tempZewn", ⟨"Outdoor Temperature", some "temperature", some "°C", some "mdi:thermometer"⟩),
  ("tempPokojowa", ⟨"Room Temperature", some "temperature", some "°C", some "mdi:home-thermometer"⟩),
  ("tempCWU", ⟨"Hot Water Temperature", some "temperature", some "°C", some "mdi:water-boiler"⟩),
  ("tempBuforGora", ⟨"Buffer Top Temperature", some "temperature", some "°C", some "mdi:storage-tank"⟩),
  ("tempBuforDol", ⟨"Buffer Bottom Temperature", some "temperature", some "°C", some "mdi:storage-tank"⟩),
  ("HeatSourceCalcPresetTemp", ⟨"Calculated Heating Setpoint", some "temperature", some "°C", some "mdi:thermometer-auto"⟩),
  ("Circuit1SetTemp", ⟨"Circuit 1 Setpoint", some "temperature", some "°C", some "mdi:thermometer-check"⟩)]

/-- Part 2 of the `SENSOR_DEFINITIONS` table. -/
def SENSOR_DEFS_2 : List (String × SensorDef) := [
  ("Circuit2SetTemp", ⟨"Circuit 2 Setpoint", some "temperature", some "°C", some "mdi:thermometer-check"⟩),
  ("C1CalcTemp", ⟨"Circuit 1 Calculated Setpoint", some "temperature", some "°C", some "mdi:thermometer-auto"⟩),
  ("C2CalcTemp", ⟨"Circuit 2 Calculated Setpoint", some "temperature", some "°C", some "mdi:thermometer-auto"⟩),
  ("TempSetCircuit1", ⟨"Circuit 1 Target Temperature", some "temperature", some "°C", some "mdi:thermometer-check"⟩),
  ("TempSetCircuit2", ⟨"Circuit 2 Target Temperature", some "temperature", some "°C", some "mdi:thermometer-check"⟩),
  ("CalcTempCircuit1", ⟨"Circuit 1 Calculated Temperature", some "temperature", some "°C", some "mdi:thermometer-auto"⟩),
  ("CalcTempCircuit2", ⟨"Circuit 2 Calculated Temperature", some "temperature", some "°C", some "mdi:thermometer-auto"⟩),
  ("SetTempCO", ⟨"Heating Setpoint", some "temperature", some "°C", some "mdi:thermometer-check"⟩),
  ("SetTempCWU", ⟨"Hot Water Setpoint", some "temperature", some "°C", some "mdi:thermometer-check"⟩),
  ("CalcSetTempCO", ⟨"Calculated Heating Setpoint", some "temperature", some "°C", some "mdi:thermometer-auto"⟩),
  ("CalcSetTempCWU", ⟨"Calculated Hot Water Setpoint", some "temperature", some "°C", some "mdi:thermometer-auto"⟩),
  ("HDWTSetPoint", ⟨"Hot Water Setpoint", some "temperature", some "°C", some "mdi:thermometer-check"⟩),
  ("BuforsetPoint", ⟨"Buffer Setpoint", some "temperature", some "°C", some "mdi:thermometer-check"⟩),
  ("Circuit1ComfortTemp", ⟨"Circuit 1 Comfort Temperature", some "temperature", some "°C", some "mdi:thermometer-check"⟩),
  ("Circuit1EcoTemp", ⟨"Circuit 1 Eco Temperature", some "temperature", some "°C", some "mdi:thermometer-check"⟩),
  ("Circuit1BaseTemp", ⟨"Circuit 1 Base Temperature", some "temperature", some "°C", some "mdi:thermometer-check"⟩),
  ("Circuit2ComfortTemp", ⟨"Circuit 2 Comfort Temperature", some "temperature", some "°C", some "mdi:thermometer-check"⟩),
  ("Circuit2EcoTemp", ⟨"Circuit 2 Eco Temperature", some "temperature", some "°C", some "mdi:thermometer-check"⟩),
  ("Circuit2BaseTemp", ⟨"Circuit 2 Base Temperature", some "temperature", some "°C", some "mdi:thermometer-check"⟩),
  ("Circuit3ComfortTemp", ⟨"Circuit 3 Comfort Temperature", some "temperature", some "°C", some "mdi:thermometer-check"⟩),
  ("Circuit3EcoTemp", ⟨"Circuit 3 Eco Temperature", some "temperature", some "°C", some "mdi:thermometer-check"⟩),
  ("Circuit3BaseTemp", ⟨"Circuit 3 Base Temperature", some "temperature", some "°C", some "mdi:thermometer-check"⟩),
  ("Circuit1WorkState", ⟨"Circuit 1 Work State", Option.none, Option.none, some "mdi:radiator"⟩),
  ("Circuit2WorkState", ⟨"Circuit 2 Work State", Option.none, Option.none, some "mdi:radiator"⟩),
  ("Circuit3WorkState", ⟨"Circuit 3 Work State", Option.none, Option.none, some "mdi:radiator"⟩),
  ("Circuit1CurveRadiator", ⟨"Circuit 1 Heating Curve", Option.none, Option.none, some "mdi:chart-line"⟩),
  ("Circuit2CurveFloor", ⟨"Circuit 2 Heating Curve", Option.none, Option.none, some "mdi:chart-line"⟩),
  ("HeatingCooling", ⟨"Heating/Cooling Mode", Option.none, Option.none, some "mdi:hvac"⟩),
  ("SummerOn", ⟨"Summer Mode On Temperature", some "temperature", some "°C", some "mdi:weather-sunny"⟩),
  ("SummerOff", ⟨"Summer Mode Off Temperature", some "temperature", some "°C", some "mdi:weather-sunny"⟩),
  ("Circuit1thermostat", ⟨"Circuit 1 Thermostat", some "temperature", some "°C", some "mdi:thermostat"⟩),
  ("Circuit2thermostatTemp", ⟨"Circuit 2 Thermostat", some "temperature", some "°C", some "mdi:thermostat"⟩),
  ("Circuit3thermostatTemp", ⟨"Circuit 3 Thermostat", some "temperature", some "°C", some "mdi:thermostat"⟩),
  ("Circuit4thermostatTemp", ⟨"Circuit 4 Thermostat", some "temperature", some "°C", some "mdi:thermostat"⟩)]

/-- Part 3 of the `SENSOR_DEFINITIONS` table. -/
def SENSOR_DEFS_3 : List (String × SensorDef) := [
  ("Circuit5thermostatTemp", ⟨"Circuit 5 Thermostat", some "temperature", some "°C", some "mdi:thermostat"⟩),
  ("Circuit6thermostatTemp", ⟨"Circuit 6 Thermostat", some "temperature", some "°C", some "mdi:thermostat"⟩),
  ("Circuit7thermostatTemp", ⟨"Circuit 7 Thermostat", some "temperature", some "°C", some "mdi:thermostat"⟩),
  ("tempZadanaCO", ⟨"Heating Setpoint", some "temperature", some "°C", some "mdi:thermometer-check"⟩),
  ("tempZadanaCWU", ⟨"Hot Water Setpoint", some "temperature", some "°C", some "mdi:thermometer-check"⟩),
  ("tempWyliczonaCO", ⟨"Calculated Heating Setpoint", some "temperature", some "°C", some "mdi:thermometer-auto"⟩),
  ("tempWyliczonaObieg1", ⟨"Circuit 1 Calculated Setpoint", some "temperature", some "°C", some "mdi:thermometer-auto"⟩),
  ("tempWyliczonaObieg2", ⟨"Circuit 2 Calculated Setpoint", some "temperature", some "°C", some "mdi:thermometer-auto"⟩),
  ("Flow", ⟨"Current Flow Rate", Option.none, some "L/min", some "mdi:water-pump"⟩),
  ("WaterFlow", ⟨"Water Flow Rate", Option.none, some "L/min", some "mdi:water-pump"⟩),
  ("FlowRate", ⟨"Flow Rate", Option.none, some "L/min", some "mdi:water-pump"⟩),
  ("przepyw", ⟨"Flow Rate", Option.none, some "L/min", some "mdi:water-pump"⟩),
  ("przeplyw", ⟨"Flow Rate", Option.none, some "L/min", some "mdi:water-pump"⟩),
  ("Power", ⟨"Current Power", some "power", some "W", some "mdi:flash"⟩),
  ("ElecPower", ⟨"Electrical Power", some "power", some "W", some "mdi:flash"⟩),
  ("CurrentPower", ⟨"Current Power Usage", some "power", some "W", some "mdi:flash"⟩),
  ("HeatingPower", ⟨"Heating Power", some "power", some "kW", some "mdi:flash"⟩),
  ("ThermalPower", ⟨"Thermal Power", some "power", some "kW", some "mdi:fire"⟩),
  ("EnergyTotal", ⟨"Total Energy", some "energy", some "kWh", some "mdi:lightning-bolt"⟩),
  ("EnergyToday", ⟨"Energy Today", some "energy", some "kWh", some "mdi:lightning-bolt"⟩),
  ("EnergyYesterday", ⟨"Energy Yesterday", some "energy", some "kWh", some "mdi:lightning-bolt"⟩),
  ("EnergyMonth", ⟨"Energy This Month", some "energy", some "kWh", some "mdi:lightning-bolt"⟩),
  ("COP", ⟨"Coefficient of Performance", Option.none, Option.none, some "mdi:chart-line"⟩),
  ("moc", ⟨"Power", some "power", some "W", some "mdi:flash"⟩),
  ("mocGrzania", ⟨"Heating Power", some "power", some "kW", some "mdi:fire"⟩),
  ("energiaZuzycie", ⟨"Energy Consumption", some "energy", some "kWh", some "mdi:lightning-bolt"⟩),
  ("HeatDemand", ⟨"Heat Demand", Option.none, some "%", some "mdi:fire"⟩),
  ("Demand", ⟨"Heating Demand", Option.none, some "%", some "mdi:fire"⟩),
  ("DemandForHeat", ⟨"Demand for Heat", Option.none, Option.none, some "mdi:fire"⟩),
  ("HeatingDemand", ⟨"Heating Demand", Option.none, some "%", some "mdi:fire"⟩),
  ("DemandCH", ⟨"Central Heating Demand", Option.none, some "%", some "mdi:fire"⟩),
  ("DemandCWU", ⟨"Hot Water Demand", Option.none, some "%", some "mdi:water-boiler"⟩),
  ("ModulationLevel", ⟨"Modulation Level", Option.none, some "%", some "mdi:percent"⟩),
  ("zapotrzebowanie", ⟨"Heat Demand", Option.none, some "%", some "mdi:fire"⟩)]

/-- Part 4 of the `SENSOR_DEFINITIONS` table. -/
def SENSOR_DEFS_4 : List (String × SensorDef) := [
  ("zapotrzebowanieCO", ⟨"Heating Demand", Option.none, some "%", some "mdi:fire"⟩),
  ("zapotrzebowanieCWU", ⟨"Hot Water Demand", Option.none, some "%", some "mdi:water-boiler"⟩),
  ("Pressure", ⟨"System Pressure", some "pressure", some "bar", some "mdi:gauge"⟩),
  ("WaterPressure", ⟨"Water Pressure", some "pressure", some "bar", some "mdi:gauge"⟩),
  ("SystemPressure", ⟨"System Pressure", some "pressure", some "bar", some "mdi:gauge"⟩),
  ("cisnienie", ⟨"Pressure", some "pressure", some "bar", some "mdi:gauge"⟩),
  ("PumpCH", ⟨"Central Heating Pump", Option.none, Option.none, some "mdi:pump"⟩),
  ("PumpCWU", ⟨"Hot Water Pump", Option.none, Option.none, some "mdi:pump"⟩),
  ("PumpCirc", ⟨"Circulation Pump", Option.none, Option.none, some "mdi:pump"⟩),
  ("PumpCircuit1", ⟨"Circuit 1 Pump", Option.none, Option.none, some "mdi:pump"⟩),
  ("PumpCircuit2", ⟨"Circuit 2 Pump", Option.none, Option.none, some "mdi:pump"⟩),
  ("Valve3Way", ⟨"3-Way Valve Position", Option.none, some "%", some "mdi:valve"⟩),
  ("MixerPosition", ⟨"Mixer Position", Option.none, some "%", some "mdi:valve"⟩),
  ("pompaCO", ⟨"Central Heating Pump", Option.none, Option.none, some "mdi:pump"⟩),
  ("pompaCWU", ⟨"Hot Water Pump", Option.none, Option.none, some "mdi:pump"⟩),
  ("pompaObieg1", ⟨"Circuit 1 Pump", Option.none, Option.none, some "mdi:pump"⟩),
  ("pompaObieg2", ⟨"Circuit 2 Pump", Option.none, Option.none, some "mdi:pump"⟩),
  ("zawor3drogowy", ⟨"3-Way Valve", Option.none, some "%", some "mdi:valve"⟩),
  ("mieszacz", ⟨"Mixer Position", Option.none, some "%", some "mdi:valve"⟩),
  ("FanSpeed", ⟨"Fan Speed", Option.none, some "%", some "mdi:fan"⟩),
  ("FanPower", ⟨"Fan Power", Option.none, some "%", some "mdi:fan"⟩),
  ("BlowerSpeed", ⟨"Blower Speed", Option.none, some "RPM", some "mdi:fan"⟩),
  ("wentylator", ⟨"Fan Speed", Option.none, some "%", some "mdi:fan"⟩),
  ("dmuchawa", ⟨"Blower Speed", Option.none, some "%", some "mdi:fan"⟩),
  ("FuelLevel", ⟨"Fuel Level", Option.none, some "%", some "mdi:gas-station"⟩),
  ("FuelConsumption", ⟨"Fuel Consumption", Option.none, some "kg/h", some "mdi:fire"⟩),
  ("FuelTotal", ⟨"Total Fuel Used", Option.none, some "kg", some "mdi:counter"⟩),
  ("FeederWork", ⟨"Feeder Work Time", some "duration", some "s", some "mdi:clock"⟩),
  ("poziomPaliwa", ⟨"Fuel Level", Option.none, some "%", some "mdi:gas-station"⟩),
  ("zuzyciePaliwa", ⟨"Fuel Consumption", Option.none, some "kg/h", some "mdi:fire"⟩),
  ("podajnik", ⟨"Feeder Work Time", some "duration", some "s", some "mdi:clock"⟩),
  ("WorkMode", ⟨"Work Mode", Option.none, Option.none, some "mdi:state-machine"⟩),
  ("OperatingMode", ⟨"Operating Mode", Option.none, Option.none, some "mdi:state-machine"⟩),
  ("State", ⟨"System State", Option.none, Option.none, some "mdi:state-machine"⟩)]

/-- Part 5 of the `SENSOR_DEFINITIONS` table. -/
def SENSOR_DEFS_5 : List (String × SensorDef) := [
  ("HeaterState", ⟨"Heater State", Option.none, Option.none, some "mdi:fire"⟩),
  ("AlarmState", ⟨"Alarm State", Option.none, Option.none, some "mdi:alert"⟩),
  ("ErrorCode", ⟨"Error Code", Option.none, Option.none, some "mdi:alert-circle"⟩),
  ("trybPracy", ⟨"Work Mode", Option.none, Option.none, some "mdi:state-machine"⟩),
  ("stanPracy", ⟨"Operating State", Option.none, Option.none, some "mdi:state-machine"⟩),
  ("alarm", ⟨"Alarm State", Option.none, Option.none, some "mdi:alert"⟩),
  ("RuntimeTotal", ⟨"Total Runtime", some "duration", some "h", some "mdi:clock"⟩),
  ("RuntimeToday", ⟨"Runtime Today", some "duration", some "h", some "mdi:clock"⟩),
  ("CompressorStarts", ⟨"Compressor Starts", Option.none, Option.none, some "mdi:counter"⟩),
  ("BurnerStarts", ⟨"Burner Starts", Option.none, Option.none, some "mdi:counter"⟩),
  ("czasPracyCalkowity", ⟨"Total Runtime", some "duration", some "h", some "mdi:clock"⟩),
  ("iloscZapalania", ⟨"Ignition Count", Option.none, Option.none, some "mdi:counter"⟩),
  ("wifiQuality", ⟨"WiFi Quality", Option.none, some "%", some "mdi:wifi"⟩),
  ("wifiStrength", ⟨"WiFi Signal Strength", some "signal_strength", some "dBm", some "mdi:wifi"⟩),
  ("info_compressor_hz", ⟨"Compressor Frequency", Option.none, some "Hz", some "mdi:sine-wave"⟩),
  ("info_fan_rpm", ⟨"Fan Speed", Option.none, some "RPM", some "mdi:fan"⟩),
  ("info_flow_rate", ⟨"Current Flow Rate", Option.none, some "L/min", some "mdi:water-pump"⟩),
  ("info_electrical_power", ⟨"Electrical Power", some "power", some "kW", some "mdi:flash"⟩),
  ("info_pump_rpm", ⟨"Circulation Pump Speed", Option.none, some "RPM", some "mdi:pump"⟩),
  ("info_energy_wh", ⟨"Heat Energy", some "energy", some "Wh", some "mdi:lightning-bolt"⟩),
  ("info_hp_target_temp", ⟨"Heat Pump Target Temperature", some "temperature", some "°C", some "mdi:thermometer-check"⟩),
  ("info_hp_return_temp", ⟨"Heat Pump Return Temperature", some "temperature", some "°C", some "mdi:thermometer"⟩),
  ("info_outdoor_temp", ⟨"Outdoor Temperature (HP)", some "temperature", some "°C", some "mdi:thermometer"⟩),
  ("info_hp_flow_temp", ⟨"Heat Pump Flow Temperature", some "temperature", some "°C", some "mdi:thermometer"⟩),
  ("info_cop", ⟨"Current COP", Option.none, Option.none, some "mdi:chart-line"⟩),
  ("calc_delta_t", ⟨"Delta T (Flow - Return)", some "temperature", some "°C", some "mdi:thermometer-lines"⟩)]

/-- The `SENSOR_DEFINITIONS` table of the source (162 entries), split
into parts to keep type checking cheap. -/
def SENSOR_DEFINITIONS : List (String × SensorDef) :=
  SENSOR_DEFS_1 ++ SENSOR_DEFS_2 ++ SENSOR_DEFS_3 ++ SENSOR_DEFS_4 ++ SENSOR_DEFS_5

/-- The `INFORMATION_PARAMS_MAP` table: numeric-string keys of the
`informationParams` block mapped to sensor keys. -/
def INFORMATION_PARAMS_MAP : List (String × String) := [
  ("21", "info_compressor_hz"),
  ("22", "info_fan_rpm"),
  ("231", "info_flow_rate"),
  ("211", "info_electrical_power"),
  ("26", "info_pump_rpm"),
  ("203", "info_energy_wh"),
  ("24", "info_hp_target_temp"),
  ("25", "info_hp_return_temp"),
  ("212", "info_cop")]

/-- The `wanted_editable` allow-list of `_poll_and_publish`. -/
def wantedEditable : List String :=
  ["HDWTSetPoint", "BuforsetPoint",
   "Circuit1ComfortTemp", "Circuit1EcoTemp", "Circuit1BaseTemp", "Circuit1WorkState",
   "Circuit2ComfortTemp", "Circuit2EcoTemp", "Circuit2BaseTemp", "Circuit2WorkState",
   "Circuit3ComfortTemp", "Circuit3EcoTemp", "Circuit3BaseTemp", "Circuit3WorkState",
   "Circuit1CurveRadiator", "Circuit2CurveFloor",
   "HeatingCooling", "SummerOn", "SummerOff"]

/-- An observable emission of one poll cycle: a retained Home-Assistant
discovery document, a retained value message (payload
`publishPayload v`), or a re-login attempt (`_setup_econet`). -/
inductive Event where
  | discovery : String → String → SensorDef → Event
  | value : String → String → PyVal → Event
  | relogin : Event

/-- The mutable per-process bridge state relevant to publication:
the `_discovery_published` set (as a list of sensor keys). -/
structure BridgeState where
  discovered : List String

/-- The state at bridge start: `_discovery_published = set()`. -/
def initState : BridgeState := ⟨[]⟩

/-- Models `_publish_ha_discovery`: drop the publication if the sensor
key was already discovered, otherwise publish one discovery document and
add the key to the set. -/
def publishHaDiscovery (st : BridgeState) (device key : String) (sdef : SensorDef) :
    BridgeState × List Event :=
  if key ∈ st.discovered then (st, [])
  else (⟨key :: st.discovered⟩, [Event.discovery device key sdef])

/-- Fold a state-and-events step over a list, concatenating emissions. -/
def stepFold (f : BridgeState → α → BridgeState × List Event) :
    BridgeState → List α → BridgeState × List Event
  | st, [] => (st, [])
  | st, a :: as =>
    let p := f st a
    let q := stepFold f p.1 as
    (q.1, p.2 ++ q.2)

/-- Models `dict.get(k)` (and `dict.get(k, default None)`). -/
def pyGetD (m : List (String × PyVal)) (k : String) : PyVal :=
  (m.lookup k).getD PyVal.none

/-- Result of one call into the cloud client: a document, an
`Econet24Error` (which `SessionExpiredError` and `LoginError` refine), or
any other exception. -/
inductive FetchResult (α : Type) where
  | ok : α → FetchResult α
  | econetErr : FetchResult α
  | otherErr : FetchResult α

/-- Exceptions propagating inside `_poll_and_publish`. -/
inductive PyExc where
  | econet : PyExc
  | other : PyExc

/-- The `["wifiQuality", "wifiStrength"]` literal of `_poll_and_publish`. -/
def wifiKeys : List String := ["wifiQuality", "wifiStrength"]

/-- One iteration of the WiFi-publishing loop: if the key is present at
the top level of the params document, publish discovery when the key has
a definition, then always publish the value — with no sentinel or null
filtering. -/
def publishWifiKey (st : BridgeState) (device : String) (top : List (String × PyVal))
    (key : String) : BridgeState × List Event :=
  match top.lookup key with
  | some v =>
    let p :=
      match SENSOR_DEFINITIONS.lookup key with
      | some sdef => publishHaDiscovery st device key sdef
      | Option.none => (st, [])
    (p.1, p.2 ++ [Event.value device key v])
  | Option.none => (st, [])

/-- The WiFi-publishing loop of `_poll_and_publish` (lines 469-473). -/
def publishWifi (st : BridgeState) (device : String) (top : List (String × PyVal)) :
    BridgeState × List Event :=
  stepFold (fun s k => publishWifiKey s device top k) st wifiKeys

/-- One iteration of the current-values loop (lines 477-501): skip the
`999.0` sentinel, skip nulls, publish discovery (mapped or generated
definition), then publish the value. -/
def publishCurrEntry (st : BridgeState) (device : String) (kv : String × PyVal) :
    BridgeState × List Event :=
  if isSentinel kv.2 then (st, [])
  else if kv.2.isNone then (st, [])
  else
    let p :=
      match SENSOR_DEFINITIONS.lookup kv.1 with
      | some sdef => publishHaDiscovery st device kv.1 sdef
      | Option.none => publishHaDiscovery st device kv.1 (genericDef kv.1)
    (p.1, p.2 ++ [Event.value device kv.1 kv.2])

/-- The current-values loop of `_poll_and_publish`. -/
def publishCurr (st : BridgeState) (device : String) (curr : List (String × PyVal)) :
    BridgeState × List Event :=
  stepFold (fun s kv => publishCurrEntry s device kv) st curr

/-- The Delta-T block (lines 503-511).  When both source readings are
present (non-null) and non-sentinel, `round(flow - ret, 1)` is computed
(raising `TypeError` for non-numeric operands, modelled by
`PyExc.other`), then discovery and value are published on
`calc_delta_t`. -/
def deltaStep (st : BridgeState) (device : String) (curr : List (String × PyVal)) :
    BridgeState × List Event × Option PyExc :=
  let flow := pyGetD curr "GrantOutgoingTemp"
  let ret := pyGetD curr "GrantReturnTemp"
  if flow.isNone || ret.isNone || isSentinel flow || isSentinel ret then
    (st, [], Option.none)
  else
    match flow.toNumQ, ret.toNumQ with
    | some f, some r =>
      match SENSOR_DEFINITIONS.lookup "calc_delta_t" with
      | some sdef =>
        let p := publishHaDiscovery st device "calc_delta_t" sdef
        (p.1, p.2 ++ [Event.value device "calc_delta_t" (PyVal.num (pyRound1 (f - r)))],
          Option.none)
      | Option.none => (st, [], some PyExc.other)
    | _, _ => (st, [], some PyExc.other)

/-- One entry of the editable-params `data` dict:
`param_data.get("name")` and `param_data.get("value")` (a missing value
and a null value behave identically and are both modelled by
`PyVal.none`). -/
structure ParamData where
  name : Option String
  value : PyVal

/-- One iteration of the editable-params loop (lines 529-537): publish
the value when the name is on the allow-list and the value is non-null,
preceded by discovery when the name has a definition. -/
def publishEditableEntry (st : BridgeState) (device : String) (entry : String × ParamData) :
    BridgeState × List Event :=
  match entry.2.name with
  | some n =>
    if n ∈ wantedEditable then
      if entry.2.value.isNone then (st, [])
      else
        let p :=
          match SENSOR_DEFINITIONS.lookup n with
          | some sdef => publishHaDiscovery st device n sdef
          | Option.none => (st, [])
        (p.1, p.2 ++ [Event.value device n entry.2.value])
    else (st, [])
  | Option.none => (st, [])

/-- One iteration of the information-params loop (lines 547-578): look
the numeric-string key up in `INFORMATION_PARAMS_MAP`; probe the
structure `[visible, [[value, unit_id, ...], ...]]`; on success publish
discovery (when the sensor key has a definition) and the coerced value.
Every malformed shape is skipped without effect. -/
def infoEntryStep (st : BridgeState) (device : String) (entry : String × PyVal) :
    BridgeState × List Event :=
  match INFORMATION_PARAMS_MAP.lookup entry.1 with
  | Option.none => (st, [])
  | some sensorKey =>
    match entry.2 with
    | PyVal.list (flag :: second :: _) =>
      if flag.truthy then
        match second with
        | PyVal.list (PyVal.list (v :: _) :: _) =>
          let p :=
            match SENSOR_DEFINITIONS.lookup sensorKey with
            | some sdef => publishHaDiscovery st device sensorKey sdef
            | Option.none => (st, [])
          (p.1, p.2 ++ [Event.value device sensorKey (coerceValue v)])
        | _ => (st, [])
      else (st, [])
    | _ => (st, [])

/-- The editable-params document: the `data` dict and the
`informationParams` dict. -/
structure EditableDoc where
  data : List (String × ParamData)
  informationParams : List (String × PyVal)

/-- The whole editable-params block (lines 513-584).  It sits in its own
`try`/`except Exception`, so any failure of the secondary fetch — of
either error class — is swallowed and publishes nothing. -/
def editableStep (st : BridgeState) (device : String) (fetched : FetchResult EditableDoc) :
    BridgeState × List Event :=
  match fetched with
  | FetchResult.ok doc =>
    let p := stepFold (fun s e => publishEditableEntry s device e) st doc.data
    let q := stepFold (fun s e => infoEntryStep s device e) p.1 doc.informationParams
    (q.1, p.2 ++ q.2)
  | _ => (st, [])

/-- The primary parameters document of one device: its top-level entries
(`wifiQuality`, `wifiStrength`, ...) and the `curr` map. -/
structure DeviceParams where
  top : List (String × PyVal)
  curr : List (String × PyVal)

/-- Everything one poll cycle observes about one device: its uid and the
outcomes of the two cloud fetches. -/
structure DeviceCycleInput where
  uid : String
  fetchParams : FetchResult DeviceParams
  fetchEditable : FetchResult EditableDoc

/-- The per-device body of `_poll_and_publish`: fetch, WiFi publishing,
current values, Delta-T, editable/information params.  The third
component is the exception, if any, escaping the body. -/
def deviceBody (st : BridgeState) (d : DeviceCycleInput) :
    BridgeState × List Event × Option PyExc :=
  match d.fetchParams with
  | FetchResult.econetErr => (st, [], some PyExc.econet)
  | FetchResult.otherErr => (st, [], some PyExc.other)
  | FetchResult.ok params =>
    let w := publishWifi st d.uid params.top
    let c := publishCurr w.1 d.uid params.curr
    let dl := deltaStep c.1 d.uid params.curr
    match dl.2.2 with
    | some e => (dl.1, w.2 ++ c.2 ++ dl.2.1, some e)
    | Option.none =>
      let ed := editableStep dl.1 d.uid d.fetchEditable
      (ed.1, w.2 ++ c.2 ++ dl.2.1 ++ ed.2, Option.none)

/-- The `for device_uid in devices` loop: an exception escaping one
device body abandons the remaining devices. -/
def deviceLoop (st : BridgeState) : List DeviceCycleInput → BridgeState × List Event × Option PyExc
  | [] => (st, [], Option.none)
  | d :: ds =>
    let r := deviceBody st d
    match r.2.2 with
    | some e => (r.1, r.2.1, some e)
    | Option.none =>
      let rest := deviceLoop r.1 ds
      (rest.1, r.2.1 ++ rest.2.1, rest.2.2)

/-- One whole call of `_poll_and_publish`: an `Econet24Error` triggers
one re-login attempt (lines 588-595; a failing attempt is itself caught
and logged), any other exception is logged and swallowed (lines
597-598).  The call never raises. -/
def pollAndPublish (st : BridgeState) (devices : List DeviceCycleInput) :
    BridgeState × List Event :=
  let r := deviceLoop st devices
  match r.2.2 with
  | some PyExc.econet => (r.1, r.2.1 ++ [Event.relogin])
  | _ => (r.1, r.2.1)

/-- The polling loop of `run`: successive poll cycles threading the
bridge state, starting from `initState` for a fresh process. -/
def runCycles (st : BridgeState) : List (List DeviceCycleInput) → BridgeState × List Event
  | [] => (st, [])
  | c :: cs =>
    let p := pollAndPublish st c
    let q := runCycles p.1 cs
    (q.1, p.2 ++ q.2)

/-! Trace discipline: the dedup set as a function of the emitted events. -/

/-- The sensor key of a discovery event. -/
def Event.discKey : Event → Option String
  | .discovery _ k _ => some k
  | _ => Option.none

/-- The sensor key of an event (discovery or value). -/
def evKey : Event → Option String
  | .discovery _ k _ => some k
  | .value _ k _ => some k
  | .relogin => Option.none

/-- The dedup set after one more emitted event. -/
def stepD (D : List String) : Event → List String
  | .discovery _ k _ => k :: D
  | _ => D

/-- The dedup set after a block of emitted events. -/
def foldD (D : List String) (evs : List Event) : List String :=
  evs.foldl stepD D

@[simp] theorem foldD_nil (D : List String) : foldD D [] = D := rfl

@[simp] theorem foldD_cons (D : List String) (e : Event) (evs : List Event) :
    foldD D (e :: evs) = foldD (stepD D e) evs := rfl

theorem foldD_append (D : List String) (a b : List Event) :
    foldD D (a ++ b) = foldD (foldD D a) b :=
  List.foldl_append _ _ _ _

theorem mem_stepD {k : String} {D : List String} (e : Event) (h : k ∈ D) : k ∈ stepD D e := by
  cases e <;> simp [stepD] <;> simp [h]

theorem mem_foldD {k : String} {D : List String} (evs : List Event) (h : k ∈ D) :
    k ∈ foldD D evs := by
  induction evs generalizing D with
  | nil => exact h
  | cons e rest ih => exact ih (mem_stepD e h)

/-- Scan discipline of an event trace relative to a dedup set `D`: every
discovery is on a key not yet in the set (so discovery happens at most
once per key), and every value message is on a key already in the set
(so its discovery document was emitted earlier, or pre-existed `D`). -/
def onceCovFrom (D : List String) : List Event → Prop
  | [] => True
  | Event.discovery _ k _ :: rest => k ∉ D ∧ onceCovFrom (k :: D) rest
  | Event.value _ k _ :: rest => k ∈ D ∧ onceCovFrom D rest
  | Event.relogin :: rest => onceCovFrom D rest

@[simp] theorem onceCovFrom_nil (D : List String) : onceCovFrom D [] := trivial

@[simp] theorem onceCovFrom_disc (D : List String) (d k : String) (sd : SensorDef)
    (r : List Event) :
    onceCovFrom D (Event.discovery d k sd :: r) ↔ k ∉ D ∧ onceCovFrom (k :: D) r := Iff.rfl

@[simp] theorem onceCovFrom_val (D : List String) (d k : String) (v : PyVal) (r : List Event) :
    onceCovFrom D (Event.value d k v :: r) ↔ k ∈ D ∧ onceCovFrom D r := Iff.rfl

@[simp] theorem onceCovFrom_rel (D : List String) (r : List Event) :
    onceCovFrom D (Event.relogin :: r) ↔ onceCovFrom D r := Iff.rfl

theorem onceCovFrom_append {D : List String} {a b : List Event} :
    onceCovFrom D (a ++ b) ↔ onceCovFrom D a ∧ onceCovFrom (foldD D a) b := by
  induction a generalizing D with
  | nil => simp
  | cons e rest ih =>
    cases e <;> simp [stepD, ih] <;> tauto

/-- Soundness of one state-and-events step for the trace discipline. -/
def StepOK (st st' : BridgeState) (evs : List Event) : Prop :=
  st'.discovered = foldD st.discovered evs ∧ onceCovFrom st.discovered evs

theorem StepOK.nil (st : BridgeState) : StepOK st st [] := ⟨rfl, trivial⟩

theorem StepOK.comp {s1 s2 s3 : BridgeState} {a b : List Event}
    (h1 : StepOK s1 s2 a) (h2 : StepOK s2 s3 b) : StepOK s1 s3 (a ++ b) := by
  obtain ⟨e1, o1⟩ := h1
  obtain ⟨e2, o2⟩ := h2
  refine ⟨?_, ?_⟩
  · rw [foldD_append, ← e1, e2]
  · rw [onceCovFrom_append, ← e1]
    exact ⟨o1, o2⟩

theorem StepOK.value {st st' : BridgeState} {evs : List Event} {d k : String} {v : PyVal}
    (h : StepOK st st' evs) (hk : k ∈ st'.discovered) :
    StepOK st st' (evs ++ [Event.value d k v]) := by
  obtain ⟨he, ho⟩ := h
  refine ⟨?_, ?_⟩
  · rw [foldD_append, ← he]; rfl
  · rw [onceCovFrom_append, ← he]
    exact ⟨ho, hk, trivial⟩

theorem publishHaDiscovery_ok (st : BridgeState) (d k : String) (sd : SensorDef) :
    StepOK st (publishHaDiscovery st d k sd).1 (publishHaDiscovery st d k sd).2 := by
  unfold publishHaDiscovery
  by_cases h : k ∈ st.discovered
  · simp only [if_pos h]
    exact StepOK.nil st
  · simp only [if_neg h]
    exact ⟨rfl, h, trivial⟩

theorem publishHaDiscovery_mem (st : BridgeState) (d k : String) (sd : SensorDef) :
    k ∈ (publishHaDiscovery st d k sd).1.discovered := by
  unfold publishHaDiscovery
  by_cases h : k ∈ st.discovered
  · simpa [if_pos h] using h
  · simp [if_neg h]

theorem stepFold_ok {α : Type} (f : BridgeState → α → BridgeState × List Event) (l : List α)
    (h : ∀ st a, a ∈ l → StepOK st (f st a).1 (f st a).2) :
    ∀ st, StepOK st (stepFold f st l).1 (stepFold f st l).2 := by
  induction l with
  | nil => intro st; exact StepOK.nil st
  | cons a as ih =>
    intro st
    simp only [stepFold]
    exact StepOK.comp (h st a (List.mem_cons_self a as))
      (ih (fun st b hb => h st b (List.mem_cons_of_mem a hb)) _)

/-! Side facts: every key the cycle publishes a value for has a sensor
definition (or, on the `curr` path, receives a generated one). -/

theorem lookup_mem {α β : Type} [BEq α] [LawfulBEq α] {l : List (α × β)} {a : α} {b : β}
    (h : l.lookup a = some b) : (a, b) ∈ l := by
  induction l with
  | nil => simp [List.lookup] at h
  | cons p rest ih =>
    rw [List.lookup] at h
    cases hk : a == p.1 with
    | true =>
      simp only [hk] at h
      obtain ⟨b1, b2⟩ := p
      injection h with h
      subst h
      have := eq_of_beq hk
      subst this
      exact List.mem_cons_self _ _
    | false =>
      simp only [hk] at h
      exact List.mem_cons_of_mem _ (ih h)

theorem wifi_have_defs :
    ∀ k ∈ wifiKeys, (SENSOR_DEFINITIONS.lookup k).isSome = true := by decide

theorem wanted_have_defs :
    ∀ k ∈ wantedEditable, (SENSOR_DEFINITIONS.lookup k).isSome = true := by decide

theorem info_have_defs :
    ∀ p ∈ INFORMATION_PARAMS_MAP, (SENSOR_DEFINITIONS.lookup p.2).isSome = true := by decide

theorem publishWifiKey_ok (st : BridgeState) (dev : String) (top : List (String × PyVal))
    (k : String) (hk : (SENSOR_DEFINITIONS.lookup k).isSome = true) :
    StepOK st (publishWifiKey st dev top k).1 (publishWifiKey st dev top k).2 := by
  unfold publishWifiKey
  cases htop : top.lookup k with
  | none => exact StepOK.nil st
  | some v =>
    cases hdef : SENSOR_DEFINITIONS.lookup k with
    | none => rw [hdef] at hk; simp at hk
    | some sdef =>
      exact StepOK.value (publishHaDiscovery_ok st dev k sdef)
        (publishHaDiscovery_mem st dev k sdef)

theorem publishWifi_ok (st : BridgeState) (dev : String) (top : List (String × PyVal)) :
    StepOK st (publishWifi st dev top).1 (publishWifi st dev top).2 :=
  stepFold_ok _ wifiKeys
    (fun st' k hk => publishWifiKey_ok st' dev top k (wifi_have_defs k hk)) st

theorem publishCurrEntry_ok (st : BridgeState) (dev : String) (kv : String × PyVal) :
    StepOK st (publishCurrEntry st dev kv).1 (publishCurrEntry st dev kv).2 := by
  unfold publishCurrEntry
  by_cases hs : isSentinel kv.2
  · simp only [if_pos hs]; exact StepOK.nil st
  · simp only [if_neg hs]
    by_cases hn : kv.2.isNone
    · simp only [if_pos hn]; exact StepOK.nil st
    · simp only [if_neg hn]
      cases hdef : SENSOR_DEFINITIONS.lookup kv.1 with
      | none =>
        exact StepOK.value (publishHaDiscovery_ok st dev kv.1 (genericDef kv.1))
          (publishHaDiscovery_mem st dev kv.1 (genericDef kv.1))
      | some sdef =>
        exact StepOK.value (publishHaDiscovery_ok st dev kv.1 sdef)
          (publishHaDiscovery_mem st dev kv.1 sdef)

theorem publishCurr_ok (st : BridgeState) (dev : String) (curr : List (String × PyVal)) :
    StepOK st (publishCurr st dev curr).1 (publishCurr st dev curr).2 :=
  stepFold_ok _ curr (fun st' kv _ => publishCurrEntry_ok st' dev kv) st

theorem deltaStep_ok (st : BridgeState) (dev : String) (curr : List (String × PyVal)) :
    StepOK st (deltaStep st dev curr).1 (deltaStep st dev curr).2.1 := by
  unfold deltaStep
  by_cases hg : (pyGetD curr "GrantOutgoingTemp").isNone || (pyGetD curr "GrantReturnTemp").isNone
      || isSentinel (pyGetD curr "GrantOutgoingTemp") || isSentinel (pyGetD curr "GrantReturnTemp")
  · simp only [hg, if_true]; exact StepOK.nil st
  · simp only [hg, if_false]
    cases hf : (pyGetD curr "GrantOutgoingTemp").toNumQ with
    | none => exact StepOK.nil st
    | some f =>
      cases hr : (pyGetD curr "GrantReturnTemp").toNumQ with
      | none => exact StepOK.nil st
      | some r =>
        cases hdef : SENSOR_DEFINITIONS.lookup "calc_delta_t" with
        | none => exact StepOK.nil st
        | some sdef =>
          exact StepOK.value (publishHaDiscovery_ok st dev _ sdef)
            (publishHaDiscovery_mem st dev _ sdef)

theorem publishEditableEntry_ok (st : BridgeState) (dev : String) (entry : String × ParamData) :
    StepOK st (publishEditableEntry st dev entry).1 (publishEditableEntry st dev entry).2 := by
  unfold publishEditableEntry
  cases hn : entry.2.name with
  | none => exact StepOK.nil st
  | some n =>
    by_cases hw : n ∈ wantedEditable
    · simp only [if_pos hw]
      by_cases hv : entry.2.value.isNone
      · simp only [if_pos hv]; exact StepOK.nil st
      · simp only [if_neg hv]
        cases hdef : SENSOR_DEFINITIONS.lookup n with
        | none =>
          have := wanted_have_defs n hw
          rw [hdef] at this; simp at this
        | some sdef =>
          exact StepOK.value (publishHaDiscovery_ok st dev n sdef)
            (publishHaDiscovery_mem st dev n sdef)
    · simp only [if_neg hw]; exact StepOK.nil st

theorem infoEntryStep_ok (st : BridgeState) (dev : String) (entry : String × PyVal) :
    StepOK st (infoEntryStep st dev entry).1 (infoEntryStep st dev entry).2 := by
  unfold infoEntryStep
  cases hm : INFORMATION_PARAMS_MAP.lookup entry.1 with
  | none => exact StepOK.nil st
  | some sk =>
    have hsk : (SENSOR_DEFINITIONS.lookup sk).isSome = true :=
      info_have_defs (entry.1, sk) (lookup_mem hm)
    cases hdat : entry.2 with
    | list l =>
      match l with
      | [] => exact StepOK.nil st
      | [_] => exact StepOK.nil st
      | flag :: second :: rest =>
        by_cases ht : flag.truthy
        · simp only [if_pos ht]
          match second with
          | PyVal.none => exact StepOK.nil st
          | PyVal.bool _ => exact StepOK.nil st
          | PyVal.num _ => exact StepOK.nil st
          | PyVal.str _ => exact StepOK.nil st
          | PyVal.list [] => exact StepOK.nil st
          | PyVal.list (PyVal.none :: _) => exact StepOK.nil st
          | PyVal.list (PyVal.bool _ :: _) => exact StepOK.nil st
          | PyVal.list (PyVal.num _ :: _) => exact StepOK.nil st
          | PyVal.list (PyVal.str _ :: _) => exact StepOK.nil st
          | PyVal.list (PyVal.list [] :: _) => exact StepOK.nil st
          | PyVal.list (PyVal.list (v :: _) :: _) =>
            cases hdef : SENSOR_DEFINITIONS.lookup sk with
            | none => rw [hdef] at hsk; simp at hsk
            | some sdef =>
              exact StepOK.value (publishHaDiscovery_ok st dev sk sdef)
                (publishHaDiscovery_mem st dev sk sdef)
        · simp only [if_neg ht]; exact StepOK.nil st
    | none => exact StepOK.nil st
    | bool _ => exact StepOK.nil st
    | num _ => exact StepOK.nil st
    | str _ => exact StepOK.nil st

theorem editableStep_ok (st : BridgeState) (dev : String) (f : FetchResult EditableDoc) :
    StepOK st (editableStep st dev f).1 (editableStep st dev f).2 := by
  unfold editableStep
  cases f with
  | econetErr => exact StepOK.nil st
  | otherErr => exact StepOK.nil st
  | ok doc =>
    exact StepOK.comp
      (stepFold_ok _ doc.data (fun st' e _ => publishEditableEntry_ok st' dev e) st)
      (stepFold_ok _ doc.informationParams (fun st' e _ => infoEntryStep_ok st' dev e) _)

theorem deviceBody_ok (st : BridgeState) (d : DeviceCycleInput) :
    StepOK st (deviceBody st d).1 (deviceBody st d).2.1 := by
  unfold deviceBody
  cases d.fetchParams with
  | econetErr => exact StepOK.nil st
  | otherErr => exact StepOK.nil st
  | ok params =>
    simp only
    have hw := publishWifi_ok st d.uid params.top
    have hc := publishCurr_ok (publishWifi st d.uid params.top).1 d.uid params.curr
    have hd := deltaStep_ok (publishCurr (publishWifi st d.uid params.top).1 d.uid
      params.curr).1 d.uid params.curr
    cases hdl : (deltaStep (publishCurr (publishWifi st d.uid params.top).1 d.uid
        params.curr).1 d.uid params.curr).2.2 with
    | some e =>
      exact StepOK.comp (StepOK.comp hw hc) hd
    | none =>
      have he := editableStep_ok (deltaStep (publishCurr (publishWifi st d.uid
        params.top).1 d.uid params.curr).1 d.uid params.curr).1 d.uid d.fetchEditable
      exact StepOK.comp (StepOK.comp (StepOK.comp hw hc) hd) he

theorem deviceLoop_ok (st : BridgeState) (ds : List DeviceCycleInput) :
    StepOK st (deviceLoop st ds).1 (deviceLoop st ds).2.1 := by
  induction ds generalizing st with
  | nil => exact StepOK.nil st
  | cons d rest ih =>
    have hb := deviceBody_ok st d
    cases hx : (deviceBody st d).2.2 with
    | some e =>
      simp only [deviceLoop, hx]
      exact hb
    | none =>
      simp only [deviceLoop, hx]
      exact StepOK.comp hb (ih _)

theorem pollAndPublish_ok (st : BridgeState) (ds : List DeviceCycleInput) :
    StepOK st (pollAndPublish st ds).1 (pollAndPublish st ds).2 := by
  have hl := deviceLoop_ok st ds
  cases hx : (deviceLoop st ds).2.2 with
  | some e =>
    cases e with
    | econet =>
      simp only [pollAndPublish, hx]
      exact StepOK.comp hl
        (⟨rfl, trivial⟩ : StepOK (deviceLoop st ds).1 (deviceLoop st ds).1 [Event.relogin])
    | other =>
      simp only [pollAndPublish, hx]
      exact hl
  | none =>
    simp only [pollAndPublish, hx]
    exact hl

theorem runCycles_ok (st : BridgeState) (cycles : List (List DeviceCycleInput)) :
    StepOK st (runCycles st cycles).1 (runCycles st cycles).2 := by
  induction cycles generalizing st with
  | nil => exact StepOK.nil st
  | cons c rest ih =>
    unfold runCycles
    exact StepOK.comp (pollAndPublish_ok st c) (ih _)

/-! Consequences of the scan discipline. -/

/-- Number of discovery documents for sensor key `k` in a trace. -/
def countDisc (k : String) (evs : List Event) : ℕ :=
  (evs.filter (fun e => e.discKey == some k)).length

/-- Number of discovery documents for the (device, sensor key) pair. -/
def countDiscPair (dev k : String) (evs : List Event) : ℕ :=
  (evs.filter (fun e =>
    match e with
    | Event.discovery d k' _ => d == dev && k' == k
    | _ => false)).length

/-- Number of re-login attempts in a trace. -/
def countRelogin (evs : List Event) : ℕ :=
  (evs.filter (fun e =>
    match e with
    | Event.relogin => true
    | _ => false)).length

theorem filter_imp_length {α : Type} (p q : α → Bool) (l : List α)
    (hpq : ∀ a, p a = true → q a = true) :
    (l.filter p).length ≤ (l.filter q).length := by
  induction l with
  | nil => simp
  | cons a rest ih =>
    by_cases hp : p a
    · rw [List.filter_cons_of_pos hp, List.filter_cons_of_pos (hpq a hp)]
      simpa using ih
    · rw [List.filter_cons_of_neg hp]
      by_cases hq : q a
      · rw [List.filter_cons_of_pos hq]
        exact le_trans ih (by simp)
      · rw [List.filter_cons_of_neg hq]
        exact ih

theorem countDiscPair_le (dev k : String) (evs : List Event) :
    countDiscPair dev k evs ≤ countDisc k evs := by
  refine filter_imp_length _ _ evs ?_
  intro e he
  cases e with
  | discovery d k' sd =>
    simp only [Bool.and_eq_true, beq_iff_eq] at he
    simp [Event.discKey, he.2]
  | value d k' v => simp at he
  | relogin => simp at he

theorem countDisc_cons (k : String) (e : Event) (evs : List Event) :
    countDisc k (e :: evs) =
      (if (e.discKey == some k) = true then 1 else 0) + countDisc k evs := by
  by_cases h : (e.discKey == some k) = true
  · simp [countDisc, List.filter_cons, h, Nat.add_comm]
  · simp [countDisc, List.filter_cons, h]

theorem onceCov_count (k : String) (evs : List Event) :
    ∀ D : List String, onceCovFrom D evs →
      (k ∈ D → countDisc k evs = 0) ∧ countDisc k evs ≤ 1 := by
  induction evs with
  | nil => intro D _; simp [countDisc]
  | cons e rest ih =>
    intro D h
    cases e with
    | discovery d k' sd =>
      obtain ⟨hnot, hrest⟩ := h
      have ihr := ih (k' :: D) hrest
      rw [countDisc_cons]
      by_cases hkk : k' = k
      · subst hkk
        have h0 : countDisc k' rest = 0 := ihr.1 (List.mem_cons_self _ _)
        have hpos : (Event.discKey (Event.discovery d k' sd) == some k') = true := by
          simp [Event.discKey]
        rw [if_pos hpos, h0]
        exact ⟨fun hkD => absurd hkD hnot, le_refl 1⟩
      · have hne : (Event.discKey (Event.discovery d k' sd) == some k) = false := by
          simp [Event.discKey, hkk]
        rw [hne]
        simp only [Bool.false_eq_true, if_false, Nat.zero_add]
        exact ⟨fun hkD => ihr.1 (List.mem_cons_of_mem _ hkD), ihr.2⟩
    | value d k' v =>
      obtain ⟨hmem, hrest⟩ := h
      have ihr := ih D hrest
      rw [countDisc_cons]
      have hne : (Event.discKey (Event.value d k' v) == some k) = false := by
        simp [Event.discKey]
      rw [hne]
      simp only [Bool.false_eq_true, if_false, Nat.zero_add]
      exact ihr
    | relogin =>
      have ihr := ih D h
      rw [countDisc_cons]
      have hne : (Event.discKey Event.relogin == some k) = false := by
        simp [Event.discKey]
      rw [hne]
      simp only [Bool.false_eq_true, if_false, Nat.zero_add]
      exact ihr

theorem onceCov_value_preceded (evs : List Event) :
    ∀ (D : List String) (n : ℕ) (dev k : String) (v : PyVal),
      onceCovFrom D evs → evs.get? n = some (Event.value dev k v) →
      k ∈ D ∨ ∃ m, m < n ∧ ∃ d2 sd, evs.get? m = some (Event.discovery d2 k sd) := by
  induction evs with
  | nil => intro D n dev k v _ hg; simp at hg
  | cons e rest ih =>
    intro D n dev k v h hg
    cases n with
    | zero =>
      simp only [List.get?] at hg
      injection hg with hg
      subst hg
      exact Or.inl h.1
    | succ m =>
      simp only [List.get?] at hg
      cases e with
      | discovery d k' sd =>
        obtain ⟨_, hrest⟩ := h
        rcases ih (k' :: D) m dev k v hrest hg with hmem | ⟨j, hj, d2, sd2, hgj⟩
        · rcases List.mem_cons.mp hmem with he | he
          · subst he
            exact Or.inr ⟨0, Nat.succ_pos _, d, sd, rfl⟩
          · exact Or.inl he
        · exact Or.inr ⟨j + 1, Nat.succ_lt_succ hj, d2, sd2, hgj⟩
      | value d k' v' =>
        obtain ⟨_, hrest⟩ := h
        rcases ih D m dev k v hrest hg with hmem | ⟨j, hj, d2, sd2, hgj⟩
        · exact Or.inl hmem
        · exact Or.inr ⟨j + 1, Nat.succ_lt_succ hj, d2, sd2, hgj⟩
      | relogin =>
        rcases ih D m dev k v h hg with hmem | ⟨j, hj, d2, sd2, hgj⟩
        · exact Or.inl hmem
        · exact Or.inr ⟨j + 1, Nat.succ_lt_succ hj, d2, sd2, hgj⟩

/-! Characterization of which keys each step can emit events on. -/

theorem publishHaDiscovery_events (st : BridgeState) (d k : String) (sd : SensorDef) :
    ∀ e ∈ (publishHaDiscovery st d k sd).2, e = Event.discovery d k sd := by
  unfold publishHaDiscovery
  by_cases h : k ∈ st.discovered
  · simp [h]
  · simp [h]

theorem stepFold_mem {α : Type} (f : BridgeState → α → BridgeState × List Event)
    (l : List α) : ∀ st e, e ∈ (stepFold f st l).2 → ∃ st' a, a ∈ l ∧ e ∈ (f st' a).2 := by
  induction l with
  | nil => intro st e h; simp [stepFold] at h
  | cons a as ih =>
    intro st e h
    simp only [stepFold] at h
    rcases List.mem_append.mp h with h1 | h2
    · exact ⟨st, a, List.mem_cons_self a as, h1⟩
    · obtain ⟨st', b, hb, he⟩ := ih _ e h2
      exact ⟨st', b, List.mem_cons_of_mem a hb, he⟩

theorem publishWifiKey_events (st : BridgeState) (dev : String) (top : List (String × PyVal))
    (k : String) : ∀ e ∈ (publishWifiKey st dev top k).2, evKey e = some k := by
  unfold publishWifiKey
  cases htop : top.lookup k with
  | none => simp
  | some v =>
    cases hdef : SENSOR_DEFINITIONS.lookup k with
    | none =>
      intro e he
      simp only [List.nil_append, List.mem_singleton] at he
      subst he; rfl
    | some sdef =>
      intro e he
      rcases List.mem_append.mp he with h1 | h2
      · rw [publishHaDiscovery_events st dev k sdef e h1]; rfl
      · simp only [List.mem_singleton] at h2
        subst h2; rfl

theorem publishWifi_events (st : BridgeState) (dev : String) (top : List (String × PyVal)) :
    ∀ e ∈ (publishWifi st dev top).2, ∃ k, k ∈ wifiKeys ∧ evKey e = some k := by
  intro e he
  obtain ⟨st', k, hk, hin⟩ := stepFold_mem _ wifiKeys st e he
  exact ⟨k, hk, publishWifiKey_events st' dev top k e hin⟩

theorem publishCurrEntry_events (st : BridgeState) (dev : String) (kv : String × PyVal) :
    ∀ e ∈ (publishCurrEntry st dev kv).2,
      evKey e = some kv.1 ∧ isSentinel kv.2 = false ∧ kv.2.isNone = false := by
  unfold publishCurrEntry
  by_cases hs : isSentinel kv.2
  · simp [hs]
  · simp only [if_neg hs]
    by_cases hn : kv.2.isNone
    · simp [hn]
    · simp only [if_neg hn]
      intro e he
      refine ⟨?_, Bool.eq_false_iff.mpr hs, Bool.eq_false_iff.mpr hn⟩
      cases hdef : SENSOR_DEFINITIONS.lookup kv.1 with
      | none =>
        rw [hdef] at he
        rcases List.mem_append.mp he with h1 | h2
        · rw [publishHaDiscovery_events st dev kv.1 (genericDef kv.1) e h1]; rfl
        · simp only [List.mem_singleton] at h2; subst h2; rfl
      | some sdef =>
        rw [hdef] at he
        rcases List.mem_append.mp he with h1 | h2
        · rw [publishHaDiscovery_events st dev kv.1 sdef e h1]; rfl
        · simp only [List.mem_singleton] at h2; subst h2; rfl

theorem publishCurr_events (st : BridgeState) (dev : String) (curr : List (String × PyVal)) :
    ∀ e ∈ (publishCurr st dev curr).2,
      ∃ kv, kv ∈ curr ∧ evKey e = some kv.1 ∧ isSentinel kv.2 = false ∧ kv.2.isNone = false := by
  intro e he
  obtain ⟨st', kv, hkv, hin⟩ := stepFold_mem _ curr st e he
  exact ⟨kv, hkv, publishCurrEntry_events st' dev kv e hin⟩

theorem deltaStep_events (st : BridgeState) (dev : String) (curr : List (String × PyVal)) :
    ∀ e ∈ (deltaStep st dev curr).2.1, evKey e = some "calc_delta_t" := by
  unfold deltaStep
  by_cases hg : (pyGetD curr "GrantOutgoingTemp").isNone || (pyGetD curr "GrantReturnTemp").isNone
      || isSentinel (pyGetD curr "GrantOutgoingTemp") || isSentinel (pyGetD curr "GrantReturnTemp")
  · simp [hg]
  · simp only [hg, if_false]
    cases hf : (pyGetD curr "GrantOutgoingTemp").toNumQ with
    | none => simp
    | some f =>
      cases hr : (pyGetD curr "GrantReturnTemp").toNumQ with
      | none => simp
      | some r =>
        cases hdef : SENSOR_DEFINITIONS.lookup "calc_delta_t" with
        | none => simp
        | some sdef =>
          intro e he
          rcases List.mem_append.mp he with h1 | h2
          · rw [publishHaDiscovery_events st dev _ sdef e h1]; rfl
          · simp only [List.mem_singleton] at h2; subst h2; rfl

theorem publishEditableEntry_events (st : BridgeState) (dev : String)
    (entry : String × ParamData) :
    ∀ e ∈ (publishEditableEntry st dev entry).2,
      ∃ n, evKey e = some n ∧ n ∈ wantedEditable := by
  unfold publishEditableEntry
  cases hn : entry.2.name with
  | none => simp
  | some n =>
    by_cases hw : n ∈ wantedEditable
    · simp only [if_pos hw]
      by_cases hv : entry.2.value.isNone
      · simp [hv]
      · simp only [if_neg hv]
        intro e he
        refine ⟨n, ?_, hw⟩
        cases hdef : SENSOR_DEFINITIONS.lookup n with
        | none =>
          rw [hdef] at he
          simp only [List.nil_append, List.mem_singleton] at he
          subst he; rfl
        | some sdef =>
          rw [hdef] at he
          rcases List.mem_append.mp he with h1 | h2
          · rw [publishHaDiscovery_events st dev n sdef e h1]; rfl
          · simp only [List.mem_singleton] at h2; subst h2; rfl
    · simp [hw]

theorem infoEntryStep_events (st : BridgeState) (dev : String) (entry : String × PyVal) :
    ∀ e ∈ (infoEntryStep st dev entry).2,
      ∃ n, evKey e = some n ∧ n ∈ INFORMATION_PARAMS_MAP.map Prod.snd := by
  unfold infoEntryStep
  cases hm : INFORMATION_PARAMS_MAP.lookup entry.1 with
  | none => simp
  | some sk =>
    have hmem : sk ∈ INFORMATION_PARAMS_MAP.map Prod.snd :=
      List.mem_map_of_mem Prod.snd (lookup_mem hm)
    cases hdat : entry.2 with
    | list l =>
      match l with
      | [] => simp
      | [_] => simp
      | flag :: second :: rest =>
        by_cases ht : flag.truthy
        · simp only [if_pos ht]
          match second with
          | PyVal.none => simp
          | PyVal.bool _ => simp
          | PyVal.num _ => simp
          | PyVal.str _ => simp
          | PyVal.list [] => simp
          | PyVal.list (PyVal.none :: _) => simp
          | PyVal.list (PyVal.bool _ :: _) => simp
          | PyVal.list (PyVal.num _ :: _) => simp
          | PyVal.list (PyVal.str _ :: _) => simp
          | PyVal.list (PyVal.list [] :: _) => simp
          | PyVal.list (PyVal.list (v :: _) :: _) =>
            intro e he
            refine ⟨sk, ?_, hmem⟩
            cases hdef : SENSOR_DEFINITIONS.lookup sk with
            | none =>
              rw [hdef] at he
              simp only [List.nil_append, List.mem_singleton] at he
              subst he; rfl
            | some sdef =>
              rw [hdef] at he
              rcases List.mem_append.mp he with h1 | h2
              · rw [publishHaDiscovery_events st dev sk sdef e h1]; rfl
              · simp only [List.mem_singleton] at h2; subst h2; rfl
        · simp [ht]
    | none => simp
    | bool _ => simp
    | num _ => simp
    | str _ => simp

theorem editableStep_events (st : BridgeState) (dev : String) (f : FetchResult EditableDoc) :
    ∀ e ∈ (editableStep st dev f).2,
      ∃ n, evKey e = some n ∧
        (n ∈ wantedEditable ∨ n ∈ INFORMATION_PARAMS_MAP.map Prod.snd) := by
  unfold editableStep
  cases f with
  | econetErr => simp
  | otherErr => simp
  | ok doc =>
    intro e he
    rcases List.mem_append.mp he with h1 | h2
    · obtain ⟨st', a, _, hin⟩ := stepFold_mem _ doc.data st e h1
      obtain ⟨n, hk, hw⟩ := publishEditableEntry_events st' dev a e hin
      exact ⟨n, hk, Or.inl hw⟩
    · obtain ⟨st', a, _, hin⟩ := stepFold_mem _ doc.informationParams _ e h2
      obtain ⟨n, hk, hw⟩ := infoEntryStep_events st' dev a e hin
      exact ⟨n, hk, Or.inr hw⟩

/-- Keys that a device body with primary document `params` can publish
(discovery or value) events on. -/
def BodyKey (params : DeviceParams) (k : String) : Prop :=
  k ∈ wifiKeys ∨
  (∃ kv, kv ∈ params.curr ∧ kv.1 = k ∧ isSentinel kv.2 = false ∧ kv.2.isNone = false) ∨
  k = "calc_delta_t" ∨ k ∈ wantedEditable ∨ k ∈ INFORMATION_PARAMS_MAP.map Prod.snd

theorem deviceBody_events (st : BridgeState) (d : DeviceCycleInput) (params : DeviceParams)
    (hp : d.fetchParams = FetchResult.ok params) :
    ∀ e ∈ (deviceBody st d).2.1, ∃ k, evKey e = some k ∧ BodyKey params k := by
  unfold deviceBody
  rw [hp]
  simp only
  cases hdl : (deltaStep (publishCurr (publishWifi st d.uid params.top).1 d.uid
      params.curr).1 d.uid params.curr).2.2 with
  | some ex =>
    intro e he
    rcases List.mem_append.mp he with h12 | h3
    · rcases List.mem_append.mp h12 with h1 | h2
      · obtain ⟨k, hk, hkey⟩ := publishWifi_events st d.uid params.top e h1
        exact ⟨k, hkey, Or.inl hk⟩
      · obtain ⟨kv, hkv, hkey, hs, hn⟩ := publishCurr_events _ d.uid params.curr e h2
        exact ⟨kv.1, hkey, Or.inr (Or.inl ⟨kv, hkv, rfl, hs, hn⟩)⟩
    · have := deltaStep_events _ d.uid params.curr e h3
      exact ⟨"calc_delta_t", this, Or.inr (Or.inr (Or.inl rfl))⟩
  | none =>
    intro e he
    rcases List.mem_append.mp he with h123 | h4
    · rcases List.mem_append.mp h123 with h12 | h3
      · rcases List.mem_append.mp h12 with h1 | h2
        · obtain ⟨k, hk, hkey⟩ := publishWifi_events st d.uid params.top e h1
          exact ⟨k, hkey, Or.inl hk⟩
        · obtain ⟨kv, hkv, hkey, hs, hn⟩ := publishCurr_events _ d.uid params.curr e h2
          exact ⟨kv.1, hkey, Or.inr (Or.inl ⟨kv, hkv, rfl, hs, hn⟩)⟩
      · have := deltaStep_events _ d.uid params.curr e h3
        exact ⟨"calc_delta_t", this, Or.inr (Or.inr (Or.inl rfl))⟩
    · obtain ⟨n, hkey, hw⟩ := editableStep_events _ d.uid d.fetchEditable e h4
      rcases hw with hw | hw
      · exact ⟨n, hkey, Or.inr (Or.inr (Or.inr (Or.inl hw)))⟩
      · exact ⟨n, hkey, Or.inr (Or.inr (Or.inr (Or.inr hw)))⟩

/-! Re-login events appear only from the error handler of
`_poll_and_publish`, never from a device body. -/

theorem countRelogin_append (a b : List Event) :
    countRelogin (a ++ b) = countRelogin a + countRelogin b := by
  simp [countRelogin, List.filter_append]

theorem countRelogin_zero (evs : List Event) (h : ∀ e ∈ evs, e ≠ Event.relogin) :
    countRelogin evs = 0 := by
  simp only [countRelogin, List.length_eq_zero]
  rw [List.filter_eq_nil_iff]
  intro e he
  cases e with
  | discovery d k sd => simp
  | value d k v => simp
  | relogin => exact absurd rfl (h _ he)

theorem evKey_ne_relogin {e : Event} {k : String} (h : evKey e = some k) :
    e ≠ Event.relogin := by
  intro he
  subst he
  simp [evKey] at h

theorem deviceBody_no_relogin (st : BridgeState) (d : DeviceCycleInput) :
    countRelogin (deviceBody st d).2.1 = 0 := by
  cases hp : d.fetchParams with
  | econetErr => unfold deviceBody; rw [hp]; rfl
  | otherErr => unfold deviceBody; rw [hp]; rfl
  | ok params =>
    refine countRelogin_zero _ ?_
    intro e he
    obtain ⟨k, hk, _⟩ := deviceBody_events st d params hp e he
    exact evKey_ne_relogin hk

theorem deviceLoop_no_relogin (ds : List DeviceCycleInput) :
    ∀ st, countRelogin (deviceLoop st ds).2.1 = 0 := by
  induction ds with
  | nil => intro st; rfl
  | cons d rest ih =>
    intro st
    cases hx : (deviceBody st d).2.2 with
    | some e =>
      simp only [deviceLoop, hx]
      exact deviceBody_no_relogin st d
    | none =>
      simp only [deviceLoop, hx]
      rw [countRelogin_append, deviceBody_no_relogin st d, ih _]

/-! Claim theorems. -/

/-- C2.  Within the process lifetime (any sequence of poll cycles run
from the fresh bridge state), every value message is preceded in the
emission order by a discovery document for the same sensor key; in
particular the first value ever published on a key's topic is preceded
by that key's Discovery Record. -/
theorem C2_discovery_precedes_value (cycles : List (List DeviceCycleInput)) (n : ℕ)
    (dev k : String) (v : PyVal)
    (h : ((runCycles initState cycles).2).get? n = some (Event.value dev k v)) :
    ∃ m, m < n ∧ ∃ dev2 sd,
      ((runCycles initState cycles).2).get? m = some (Event.discovery dev2 k sd) := by
  have hok := runCycles_ok initState cycles
  have hcov : onceCovFrom initState.discovered (runCycles initState cycles).2 := hok.2
  rcases onceCov_value_preceded (runCycles initState cycles).2 initState.discovered n dev k v
      hcov h with hmem | hex
  · simp [initState] at hmem
  · exact hex

/-- C2 witness: in a concrete two-cycle run, the value message at
position 1 (the first `wifiQuality` value) is preceded by a discovery
document for `wifiQuality`. -/
theorem C2_witness :
    ∃ m, m < 1 ∧ ∃ dev2 sd,
      ((runCycles initState [[⟨"U", FetchResult.ok ⟨[("wifiQuality", PyVal.num 88)], []⟩,
        FetchResult.otherErr⟩]]).2).get? m = some (Event.discovery dev2 "wifiQuality" sd) :=
  C2_discovery_precedes_value [[⟨"U", FetchResult.ok ⟨[("wifiQuality", PyVal.num 88)], []⟩,
    FetchResult.otherErr⟩]] 1 "U" "wifiQuality" (PyVal.num 88) rfl

theorem runCycles_append (a b : List (List DeviceCycleInput)) :
    ∀ st, runCycles st (a ++ b) =
      ((runCycles (runCycles st a).1 b).1,
        (runCycles st a).2 ++ (runCycles (runCycles st a).1 b).2) := by
  induction a with
  | nil => intro st; simp [runCycles]
  | cons c cs ih =>
    intro st
    simp only [List.cons_append, runCycles, List.append_eq]
    rw [ih (pollAndPublish st c).1]
    simp [List.append_assoc]

/-- C3.  Over the process lifetime: each sensor key receives at most one
Discovery Record, hence each (device, sensor key) pair receives at most
one; and the set of already-discovered keys never loses an element
across further poll cycles (monotone non-decreasing, no retraction). -/
theorem C3_discovery_once_and_monotone (cycles more : List (List DeviceCycleInput))
    (dev k : String) :
    countDisc k (runCycles initState cycles).2 ≤ 1 ∧
    countDiscPair dev k (runCycles initState cycles).2 ≤ 1 ∧
    (k ∈ (runCycles initState cycles).1.discovered →
      k ∈ (runCycles initState (cycles ++ more)).1.discovered) := by
  have hok := runCycles_ok initState cycles
  have h1 : countDisc k (runCycles initState cycles).2 ≤ 1 :=
    (onceCov_count k (runCycles initState cycles).2 initState.discovered hok.2).2
  refine ⟨h1, le_trans (countDiscPair_le dev k _) h1, ?_⟩
  intro hk
  rw [runCycles_append]
  have hok2 := runCycles_ok (runCycles initState cycles).1 more
  rw [hok2.1]
  exact mem_foldD _ hk

/-- C3 witness: for the concrete two-cycle run that publishes
`wifiQuality` twice, the key is discovered exactly once, the pair
likewise, and the key stays in the dedup set when a further cycle is
appended. -/
theorem C3_witness :
    countDisc "wifiQuality" (runCycles initState
      [[⟨"U", FetchResult.ok ⟨[("wifiQuality", PyVal.num 88)], []⟩, FetchResult.otherErr⟩],
       [⟨"U", FetchResult.ok ⟨[("wifiQuality", PyVal.num 90)], []⟩, FetchResult.otherErr⟩]]).2 ≤ 1 ∧
    countDiscPair "U" "wifiQuality" (runCycles initState
      [[⟨"U", FetchResult.ok ⟨[("wifiQuality", PyVal.num 88)], []⟩, FetchResult.otherErr⟩],
       [⟨"U", FetchResult.ok ⟨[("wifiQuality", PyVal.num 90)], []⟩, FetchResult.otherErr⟩]]).2 ≤ 1 ∧
    "wifiQuality" ∈ (runCycles initState
      ([[⟨"U", FetchResult.ok ⟨[("wifiQuality", PyVal.num 88)], []⟩, FetchResult.otherErr⟩],
        [⟨"U", FetchResult.ok ⟨[("wifiQuality", PyVal.num 90)], []⟩, FetchResult.otherErr⟩]] ++
       [[]])).1.discovered := by
  obtain ⟨a, b, c⟩ := C3_discovery_once_and_monotone
    [[⟨"U", FetchResult.ok ⟨[("wifiQuality", PyVal.num 88)], []⟩, FetchResult.otherErr⟩],
     [⟨"U", FetchResult.ok ⟨[("wifiQuality", PyVal.num 90)], []⟩, FetchResult.otherErr⟩]]
    [[]] "U" "wifiQuality"
  exact ⟨a, b, c (by rw [show (runCycles initState
    [[⟨"U", FetchResult.ok ⟨[("wifiQuality", PyVal.num 88)], []⟩, FetchResult.otherErr⟩],
     [⟨"U", FetchResult.ok ⟨[("wifiQuality", PyVal.num 90)], []⟩, FetchResult.otherErr⟩]]).1.discovered
    = ["wifiQuality"] from rfl]; exact List.mem_singleton.mpr rfl)⟩

theorem deviceLoop_append (pre rest : List DeviceCycleInput) :
    ∀ st, (deviceLoop st pre).2.2 = Option.none →
      deviceLoop st (pre ++ rest) =
        ((deviceLoop (deviceLoop st pre).1 rest).1,
          (deviceLoop st pre).2.1 ++ (deviceLoop (deviceLoop st pre).1 rest).2.1,
          (deviceLoop (deviceLoop st pre).1 rest).2.2) := by
  induction pre with
  | nil => intro st _; simp [deviceLoop]
  | cons a as ih =>
    intro st h
    cases hx : (deviceBody st a).2.2 with
    | some e =>
      exfalso
      simp only [deviceLoop, hx] at h
      exact Option.noConfusion h
    | none =>
      have h2 : (deviceLoop (deviceBody st a).1 as).2.2 = Option.none := by
        simp only [deviceLoop, hx] at h
        exact h
      simp only [List.cons_append, deviceLoop, hx, List.append_eq]
      rw [ih _ h2]
      simp [List.append_assoc]

/-- C5.  When the primary fetch for a device raises the client's
distinguishable `Econet24Error` (after earlier devices that
completed cleanly), the poll cycle stops there — the erroring device and
every device after it publish nothing — exactly one re-login attempt is
made at the end of the cycle, and `_poll_and_publish` returns normally
(any failure of the re-login attempt itself is caught and logged, left
for the next cycle). -/
theorem C5_session_error_one_relogin (st st1 : BridgeState) (evs1 : List Event)
    (pre post : List DeviceCycleInput) (d : DeviceCycleInput)
    (hpre : deviceLoop st pre = (st1, evs1, Option.none))
    (hd : d.fetchParams = FetchResult.econetErr) :
    pollAndPublish st (pre ++ d :: post) = (st1, evs1 ++ [Event.relogin]) ∧
    countRelogin (evs1 ++ [Event.relogin]) = 1 := by
  have hbody : deviceBody st1 d = (st1, [], some PyExc.econet) := by
    unfold deviceBody
    rw [hd]
  have hloop : deviceLoop st1 (d :: post) = (st1, [], some PyExc.econet) := by
    show (let r := deviceBody st1 d;
      match r.2.2 with
      | some e => (r.1, r.2.1, some e)
      | Option.none =>
        let rest := deviceLoop r.1 post
        (rest.1, r.2.1 ++ rest.2.1, rest.2.2)) = (st1, [], some PyExc.econet)
    rw [hbody]
  have happ := deviceLoop_append pre (d :: post) st (by rw [hpre])
  rw [hpre] at happ
  simp only at happ
  rw [hloop] at happ
  constructor
  · unfold pollAndPublish
    rw [happ]
    simp
  · rw [countRelogin_append]
    have h0 : countRelogin evs1 = 0 := by
      have := deviceLoop_no_relogin pre st
      rw [hpre] at this
      exact this
    rw [h0]
    rfl

/-- C5 witness: one clean device (publishing `TempCWU`), then a device
whose fetch raises `Econet24Error`, then an abandoned device. -/
theorem C5_witness :
    pollAndPublish initState
      ([⟨"A", FetchResult.ok ⟨[], [("TempCWU", PyVal.num 50)]⟩, FetchResult.otherErr⟩] ++
        ⟨"B", FetchResult.econetErr, FetchResult.otherErr⟩ ::
        [⟨"C", FetchResult.ok ⟨[], [("TempRoom", PyVal.num 20)]⟩, FetchResult.otherErr⟩]) =
      (⟨["TempCWU"]⟩,
        [Event.discovery "A" "TempCWU"
            ⟨"Hot Water Temperature", some "temperature", some "°C", some "mdi:water-boiler"⟩,
          Event.value "A" "TempCWU" (PyVal.num 50)] ++ [Event.relogin]) ∧
    countRelogin
      ([Event.discovery "A" "TempCWU"
          ⟨"Hot Water Temperature", some "temperature", some "°C", some "mdi:water-boiler"⟩,
        Event.value "A" "TempCWU" (PyVal.num 50)] ++ [Event.relogin]) = 1 :=
  C5_session_error_one_relogin initState ⟨["TempCWU"]⟩
    [Event.discovery "A" "TempCWU"
        ⟨"Hot Water Temperature", some "temperature", some "°C", some "mdi:water-boiler"⟩,
      Event.value "A" "TempCWU" (PyVal.num 50)]
    [⟨"A", FetchResult.ok ⟨[], [("TempCWU", PyVal.num 50)]⟩, FetchResult.otherErr⟩]
    [⟨"C", FetchResult.ok ⟨[], [("TempRoom", PyVal.num 20)]⟩, FetchResult.otherErr⟩]
    ⟨"B", FetchResult.econetErr, FetchResult.otherErr⟩ rfl rfl

theorem pollAndPublish_events_mem (st : BridgeState) (ds : List DeviceCycleInput) :
    ∀ e ∈ (pollAndPublish st ds).2, e ∈ (deviceLoop st ds).2.1 ∨ e = Event.relogin := by
  intro e he
  cases hx : (deviceLoop st ds).2.2 with
  | some ex =>
    cases ex with
    | econet =>
      simp only [pollAndPublish, hx] at he
      rcases List.mem_append.mp he with h1 | h2
      · exact Or.inl h1
      · simp only [List.mem_singleton] at h2
        exact Or.inr h2
    | other =>
      simp only [pollAndPublish, hx] at he
      exact Or.inl he
  | none =>
    simp only [pollAndPublish, hx] at he
    exact Or.inl he

theorem deviceLoop_singleton_events (st : BridgeState) (d : DeviceCycleInput) :
    (deviceLoop st [d]).2.1 = (deviceBody st d).2.1 := by
  cases hx : (deviceBody st d).2.2 with
  | some e => simp [deviceLoop, hx]
  | none => simp [deviceLoop, hx]

theorem nodup_keys_eq {α β : Type} {l : List (α × β)} (h : (l.map Prod.fst).Nodup)
    {k : α} {a b : β} (ha : (k, a) ∈ l) (hb : (k, b) ∈ l) : a = b := by
  induction l with
  | nil => simp at ha
  | cons p rest ih =>
    rw [List.map_cons, List.nodup_cons] at h
    rcases List.mem_cons.mp ha with ha1 | ha2
    · rcases List.mem_cons.mp hb with hb1 | hb2
      · rw [← ha1] at hb1
        injection hb1 with _ h2
        exact h2.symm
      · exfalso
        apply h.1
        have hkm : k ∈ List.map Prod.fst rest := List.mem_map_of_mem Prod.fst hb2
        rw [← ha1]
        exact hkm
    · rcases List.mem_cons.mp hb with hb1 | hb2
      · exfalso
        apply h.1
        have hkm : k ∈ List.map Prod.fst rest := List.mem_map_of_mem Prod.fst ha2
        rw [← hb1]
        exact hkm
      · exact ih h.2 ha2 hb2

/-- C1.  A sentinel reading (`value == 999.0`) in the device's `curr`
map is suppressed entirely: the poll cycle emits no value message and no
discovery document on that key.  The side hypotheses rule out the same
key being independently delivered by one of the other data sources of
the same cycle (WiFi top-level keys, the derived `calc_delta_t`, the
editable-parameter allow-list, the information-parameter table), and
`curr` has distinct keys, as a Python dict guarantees. -/
theorem C1_sentinel_suppressed (st : BridgeState) (uid : String) (params : DeviceParams)
    (fe : FetchResult EditableDoc) (k : String) (v : PyVal)
    (hin : (k, v) ∈ params.curr) (hs : isSentinel v = true)
    (hnd : (params.curr.map Prod.fst).Nodup)
    (hw : k ∉ wifiKeys) (hdt : k ≠ "calc_delta_t")
    (hwe : k ∉ wantedEditable) (him : k ∉ INFORMATION_PARAMS_MAP.map Prod.snd) :
    (pollAndPublish st [⟨uid, FetchResult.ok params, fe⟩]).2.all
      (fun e => !(evKey e == some k)) = true := by
  rw [List.all_eq_true]
  intro e he
  rcases pollAndPublish_events_mem st _ e he with hloop | hrel
  · rw [deviceLoop_singleton_events] at hloop
    obtain ⟨k', hk', hbody⟩ := deviceBody_events st _ params rfl e hloop
    rw [hk']
    simp only [Bool.not_eq_eq_eq_not, Bool.not_true, beq_eq_false_iff_ne, ne_eq,
      Option.some.injEq]
    intro hkk
    subst hkk
    rcases hbody with h1 | h2 | h3 | h4 | h5
    · exact hw h1
    · obtain ⟨kv, hkv, hfst, hsent, _⟩ := h2
      obtain ⟨k1, v1⟩ := kv
      simp only at hfst
      subst hfst
      rw [nodup_keys_eq hnd hkv hin] at hsent
      rw [hs] at hsent
      exact Bool.noConfusion hsent
    · exact hdt h3
    · exact hwe h4
    · exact him h5
  · subst hrel
    rfl

/-- C1 witness: a `curr` containing the sentinel reading
`("TempCWU", 999)` next to a live reading publishes nothing on
`TempCWU`. -/
theorem C1_witness :
    (pollAndPublish initState [⟨"U",
      FetchResult.ok ⟨[], [("TempCWU", PyVal.num 999), ("TempRoom", PyVal.num 20)]⟩,
      FetchResult.otherErr⟩]).2.all
      (fun e => !(evKey e == some "TempCWU")) = true :=
  C1_sentinel_suppressed initState "U"
    ⟨[], [("TempCWU", PyVal.num 999), ("TempRoom", PyVal.num 20)]⟩
    FetchResult.otherErr "TempCWU" (PyVal.num 999)
    (List.mem_cons_self _ _) rfl (by decide) (by decide) (by decide) (by decide) (by decide)

theorem stepFold_append {α : Type} (f : BridgeState → α → BridgeState × List Event)
    (a b : List α) : ∀ st, stepFold f st (a ++ b) =
      ((stepFold f (stepFold f st a).1 b).1,
        (stepFold f st a).2 ++ (stepFold f (stepFold f st a).1 b).2) := by
  induction a with
  | nil => intro st; simp [stepFold]
  | cons x xs ih =>
    intro st
    simp only [List.cons_append, stepFold, List.append_eq]
    rw [ih (f st x).1]
    simp [List.append_assoc]

theorem lookup_eq_none {α β : Type} [BEq α] [LawfulBEq α] {l : List (α × β)} {k : α}
    (h : k ∉ l.map Prod.fst) : l.lookup k = Option.none := by
  induction l with
  | nil => rfl
  | cons p rest ih =>
    rw [List.map_cons] at h
    rw [List.lookup]
    have hne : (k == p.1) = false := by
      rw [beq_eq_false_iff_ne]
      intro he
      exact h (List.mem_cons.mpr (Or.inl he))
    rw [hne]
    exact ih (fun hm => h (List.mem_cons.mpr (Or.inr hm)))

theorem lookup_mem_keys {α β : Type} [BEq α] [LawfulBEq α] {l : List (α × β)} {k : α} {b : β}
    (h : l.lookup k = some b) : k ∈ l.map Prod.fst :=
  List.mem_map_of_mem Prod.fst (lookup_mem h)

theorem mem_foldD_imp {k : String} (evs : List Event) :
    ∀ D, k ∈ foldD D evs → k ∈ D ∨ ∃ e ∈ evs, e.discKey = some k := by
  induction evs with
  | nil => intro D h; exact Or.inl h
  | cons e rest ih =>
    intro D h
    rw [foldD_cons] at h
    rcases ih _ h with hD | ⟨e2, he2, hk2⟩
    · cases e with
      | discovery d k' sd =>
        rcases List.mem_cons.mp hD with h1 | h2
        · exact Or.inr ⟨Event.discovery d k' sd, List.mem_cons_self _ _, by simp [Event.discKey, h1]⟩
        · exact Or.inl h2
      | value d k' v => exact Or.inl hD
      | relogin => exact Or.inl hD
    · exact Or.inr ⟨e2, List.mem_cons_of_mem _ he2, hk2⟩

theorem discKey_evKey {e : Event} {k : String} (h : e.discKey = some k) : evKey e = some k := by
  cases e with
  | discovery d k' sd => exact h
  | value d k' v => exact Option.noConfusion h
  | relogin => exact Option.noConfusion h

/-- C9.  A raw key that is not in `SENSOR_DEFINITIONS`, carrying a valid
(non-sentinel, non-null) reading, and not yet discovered, receives a
generated Discovery Record whose definition uses the raw key as the
display name and the generic icon, emitted immediately before its first
value message; no earlier event of the cycle is on that key. -/
theorem C9_unmapped_key_generic_discovery (st : BridgeState) (uid : String)
    (pre post : List (String × PyVal)) (top : List (String × PyVal))
    (fe : FetchResult EditableDoc) (k : String) (v : PyVal)
    (hpre : k ∉ pre.map Prod.fst)
    (hs : isSentinel v = false) (hn : v.isNone = false)
    (hdef : k ∉ SENSOR_DEFINITIONS.map Prod.fst)
    (hst : k ∉ st.discovered) :
    (genericDef k).name = k ∧ (genericDef k).icon = some "mdi:information" ∧
    ∃ t1 t2,
      (deviceBody st ⟨uid, FetchResult.ok ⟨top, pre ++ (k, v) :: post⟩, fe⟩).2.1 =
        t1 ++ Event.discovery uid k (genericDef k) :: Event.value uid k v :: t2 ∧
      ∀ e ∈ t1, ¬ evKey e = some k := by
  refine ⟨rfl, rfl, ?_⟩
  set w := publishWifi st uid top with hw
  set st1 := (stepFold (fun s kv => publishCurrEntry s uid kv) w.1 pre).1 with hst1
  set preEvs := (stepFold (fun s kv => publishCurrEntry s uid kv) w.1 pre).2 with hpreEvs
  have hks : k ∉ st1.discovered := by
    intro hk
    have hok := stepFold_ok (fun s kv => publishCurrEntry s uid kv) pre
      (fun s kv _ => publishCurrEntry_ok s uid kv) w.1
    rw [← hst1, ← hpreEvs] at hok
    rw [hok.1] at hk
    rcases mem_foldD_imp preEvs _ hk with h1 | ⟨e, he, hke⟩
    · have hwok := publishWifi_ok st uid top
      rw [← hw] at hwok
      rw [hwok.1] at h1
      rcases mem_foldD_imp w.2 _ h1 with h2 | ⟨e, he, hke⟩
      · exact hst h2
      · obtain ⟨k2, hk2, hkey⟩ := publishWifi_events st uid top e he
        rw [discKey_evKey hke] at hkey
        injection hkey with hkey
        subst hkey
        have := wifi_have_defs k hk2
        rw [Option.isSome_iff_exists] at this
        obtain ⟨sd, hsd⟩ := this
        exact hdef (lookup_mem_keys hsd)
    · obtain ⟨kv, hkv, hkey, _, _⟩ := publishCurr_events w.1 uid pre e he
      rw [discKey_evKey hke] at hkey
      injection hkey with hkey
      exact hpre (hkey ▸ List.mem_map_of_mem Prod.fst hkv)
  have hlook : SENSOR_DEFINITIONS.lookup k = Option.none := lookup_eq_none hdef
  have hentry : publishCurrEntry st1 uid (k, v) =
      (⟨k :: st1.discovered⟩,
        [Event.discovery uid k (genericDef k), Event.value uid k v]) := by
    unfold publishCurrEntry
    simp only [hs, hn, Bool.false_eq_true, if_false]
    rw [hlook]
    unfold publishHaDiscovery
    rw [if_neg hks]
    rfl
  have hc : publishCurr w.1 uid (pre ++ (k, v) :: post) =
      ((stepFold (fun s kv => publishCurrEntry s uid kv) ⟨k :: st1.discovered⟩ post).1,
        preEvs ++ Event.discovery uid k (genericDef k) :: Event.value uid k v ::
          (stepFold (fun s kv => publishCurrEntry s uid kv) ⟨k :: st1.discovered⟩ post).2) := by
    unfold publishCurr
    rw [stepFold_append]
    simp only [stepFold]
    rw [hentry]
    rfl
  have ht1 : ∀ e ∈ w.2 ++ preEvs, ¬ evKey e = some k := by
    intro e he hke
    rcases List.mem_append.mp he with h1 | h2
    · obtain ⟨k2, hk2, hkey⟩ := publishWifi_events st uid top e h1
      rw [hke] at hkey
      injection hkey with hkey
      subst hkey
      have := wifi_have_defs k hk2
      rw [Option.isSome_iff_exists] at this
      obtain ⟨sd, hsd⟩ := this
      exact hdef (lookup_mem_keys hsd)
    · obtain ⟨kv, hkv, hkey, _, _⟩ := publishCurr_events w.1 uid pre e h2
      rw [hke] at hkey
      injection hkey with hkey
      exact hpre (hkey ▸ List.mem_map_of_mem Prod.fst hkv)
  obtain ⟨tl, htl⟩ : ∃ tl,
      (deviceBody st ⟨uid, FetchResult.ok ⟨top, pre ++ (k, v) :: post⟩, fe⟩).2.1 =
        w.2 ++ (publishCurr w.1 uid (pre ++ (k, v) :: post)).2 ++ tl := by
    unfold deviceBody
    simp only
    cases hdl : (deltaStep (publishCurr (publishWifi st uid top).1 uid
        (pre ++ (k, v) :: post)).1 uid (pre ++ (k, v) :: post)).2.2 with
    | some e =>
      exact ⟨(deltaStep (publishCurr (publishWifi st uid top).1 uid
        (pre ++ (k, v) :: post)).1 uid (pre ++ (k, v) :: post)).2.1, rfl⟩
    | none =>
      refine ⟨(deltaStep (publishCurr (publishWifi st uid top).1 uid
          (pre ++ (k, v) :: post)).1 uid (pre ++ (k, v) :: post)).2.1 ++
        (editableStep (deltaStep (publishCurr (publishWifi st uid top).1 uid
          (pre ++ (k, v) :: post)).1 uid (pre ++ (k, v) :: post)).1 uid fe).2, ?_⟩
      simp [List.append_assoc]
  refine ⟨w.2 ++ preEvs,
    (stepFold (fun s kv => publishCurrEntry s uid kv) ⟨k :: st1.discovered⟩ post).2 ++ tl,
    ?_, ht1⟩
  rw [htl, hc]
  simp [List.append_assoc]

/-- C9 witness: the unmapped key `Mystery` with value `7` yields a
generic discovery document immediately followed by its value. -/
theorem C9_witness :
    (genericDef "Mystery").name = "Mystery" ∧
    (genericDef "Mystery").icon = some "mdi:information" ∧
    ∃ t1 t2,
      (deviceBody initState ⟨"U",
        FetchResult.ok ⟨[], [] ++ ("Mystery", PyVal.num 7) :: []⟩,
        FetchResult.otherErr⟩).2.1 =
        t1 ++ Event.discovery "U" "Mystery" (genericDef "Mystery") ::
          Event.value "U" "Mystery" (PyVal.num 7) :: t2 ∧
      ∀ e ∈ t1, ¬ evKey e = some "Mystery" :=
  C9_unmapped_key_generic_discovery initState "U" [] [] [] FetchResult.otherErr
    "Mystery" (PyVal.num 7) (by simp) rfl rfl (by decide) (by simp [initState])

/-- Is this event a value message on the derived `calc_delta_t` key? -/
def isDeltaValue : Event → Bool
  | Event.value _ k _ => k == "calc_delta_t"
  | _ => false

theorem not_delta_value {e : Event}
    (h : ∀ k, evKey e = some k → k ≠ "calc_delta_t") :
    isDeltaValue e = false := by
  cases e with
  | discovery d k sd => rfl
  | relogin => rfl
  | value d k v =>
    simp only [isDeltaValue]
    rw [beq_eq_false_iff_ne]
    exact h k rfl

theorem deltaStep_empty_of_guard (s : BridgeState) (uid : String)
    (curr : List (String × PyVal))
    (hbad : ((pyGetD curr "GrantOutgoingTemp").isNone ||
      (pyGetD curr "GrantReturnTemp").isNone ||
      isSentinel (pyGetD curr "GrantOutgoingTemp") ||
      isSentinel (pyGetD curr "GrantReturnTemp")) = true) :
    deltaStep s uid curr = (s, [], Option.none) := by
  unfold deltaStep
  simp only [hbad, if_true]

/-- C7.  Delta-T: when `GrantOutgoingTemp` and `GrantReturnTemp` are both
present as non-sentinel numbers, the device's cycle publishes a
`calc_delta_t` value equal to `round(flow - ret, 1)`; the concrete pair
45.3/38.7 rounds to exactly 6.6 (ties-to-even at one decimal, as
Python's `round`); and when either reading is absent, null or sentinel,
no `calc_delta_t` value is published that cycle (provided `curr` carries
no literal `calc_delta_t` reading of its own). -/
theorem C7_delta_t (st : BridgeState) (uid : String) (top curr : List (String × PyVal))
    (fe : FetchResult EditableDoc) :
    (∀ f r : ℚ, curr.lookup "GrantOutgoingTemp" = some (PyVal.num f) →
      curr.lookup "GrantReturnTemp" = some (PyVal.num r) →
      f ≠ 999 → r ≠ 999 →
      Event.value uid "calc_delta_t" (PyVal.num (pyRound1 (f - r))) ∈
        (deviceBody st ⟨uid, FetchResult.ok ⟨top, curr⟩, fe⟩).2.1) ∧
    (((pyGetD curr "GrantOutgoingTemp").isNone || (pyGetD curr "GrantReturnTemp").isNone ||
        isSentinel (pyGetD curr "GrantOutgoingTemp") ||
        isSentinel (pyGetD curr "GrantReturnTemp")) = true →
      "calc_delta_t" ∉ curr.map Prod.fst →
      (deviceBody st ⟨uid, FetchResult.ok ⟨top, curr⟩, fe⟩).2.1.all
        (fun e => !(isDeltaValue e)) = true) ∧
    pyRound1 ((45.3 : ℚ) - 38.7) = 6.6 := by
  refine ⟨?_, ?_, by norm_num [pyRound1, roundHalfEven]⟩
  · intro f r hf hr hf9 hr9
    have hflow : pyGetD curr "GrantOutgoingTemp" = PyVal.num f := by
      simp [pyGetD, hf]
    have hret : pyGetD curr "GrantReturnTemp" = PyVal.num r := by
      simp [pyGetD, hr]
    have hmem : ∀ s : BridgeState,
        Event.value uid "calc_delta_t" (PyVal.num (pyRound1 (f - r))) ∈
          (deltaStep s uid curr).2.1 := by
      intro s
      unfold deltaStep
      rw [hflow, hret]
      have hguard : ((PyVal.num f).isNone || (PyVal.num r).isNone ||
          isSentinel (PyVal.num f) || isSentinel (PyVal.num r)) = false := by
        simp [PyVal.isNone, isSentinel, hf9, hr9]
      simp only [hguard, Bool.false_eq_true, if_false, PyVal.toNumQ]
      rw [show SENSOR_DEFINITIONS.lookup "calc_delta_t" =
        some ⟨"Delta T (Flow - Return)", some "temperature", some "°C",
          some "mdi:thermometer-lines"⟩ from rfl]
      exact List.mem_append.mpr (Or.inr (List.mem_singleton.mpr rfl))
    unfold deviceBody
    simp only
    cases hdl : (deltaStep (publishCurr (publishWifi st uid top).1 uid curr).1
        uid curr).2.2 with
    | some ex =>
      exact List.mem_append.mpr (Or.inr (hmem _))
    | none =>
      exact List.mem_append.mpr (Or.inl (List.mem_append.mpr (Or.inr (hmem _))))
  · intro hbad hnc
    rw [List.all_eq_true]
    intro e he
    rw [Bool.not_eq_true']
    refine not_delta_value ?_
    intro k hk hkd
    subst hkd
    revert he
    unfold deviceBody
    simp only
    rw [deltaStep_empty_of_guard _ uid curr hbad]
    intro he
    rcases List.mem_append.mp he with h123 | h4
    · rcases List.mem_append.mp h123 with h12 | h3
      · rcases List.mem_append.mp h12 with h1 | h2
        · obtain ⟨k2, hk2, hkey⟩ := publishWifi_events st uid top e h1
          rw [hk] at hkey
          injection hkey with hkey
          subst hkey
          revert hk2
          decide
        · obtain ⟨kv, hkv, hkey, _, _⟩ := publishCurr_events _ uid curr e h2
          rw [hk] at hkey
          injection hkey with hkey
          exact hnc (hkey ▸ List.mem_map_of_mem Prod.fst hkv)
      · simp at h3
    · obtain ⟨n, hkey, hor⟩ := editableStep_events _ uid fe e h4
      rw [hk] at hkey
      injection hkey with hkey
      subst hkey
      rcases hor with hw | hi
      · revert hw; decide
      · revert hi; decide

/-- C7 witness: flow 45.3 and return 38.7 publish Delta-T 6.6. -/
theorem C7_witness :
    Event.value "U" "calc_delta_t" (PyVal.num (pyRound1 ((45.3 : ℚ) - 38.7))) ∈
      (deviceBody initState ⟨"U",
        FetchResult.ok ⟨[], [("GrantOutgoingTemp", PyVal.num 45.3),
          ("GrantReturnTemp", PyVal.num 38.7)]⟩,
        FetchResult.otherErr⟩).2.1 :=
  (C7_delta_t initState "U" [] [("GrantOutgoingTemp", PyVal.num 45.3),
    ("GrantReturnTemp", PyVal.num 38.7)] FetchResult.otherErr).1
    45.3 38.7 rfl rfl (by norm_num) (by norm_num)

theorem publishWifiKey_value_mem (s : BridgeState) (uid : String)
    (top : List (String × PyVal)) (k : String) (v : PyVal)
    (h : top.lookup k = some v) :
    Event.value uid k v ∈ (publishWifiKey s uid top k).2 := by
  unfold publishWifiKey
  rw [h]
  cases hdef : SENSOR_DEFINITIONS.lookup k with
  | none => simp
  | some sdef => exact List.mem_append.mpr (Or.inr (by simp))

theorem wifi_mem_body (st : BridgeState) (uid : String)
    (top curr : List (String × PyVal)) (fe : FetchResult EditableDoc) (e : Event)
    (he : e ∈ (publishWifi st uid top).2) :
    e ∈ (deviceBody st ⟨uid, FetchResult.ok ⟨top, curr⟩, fe⟩).2.1 := by
  unfold deviceBody
  simp only
  cases hdl : (deltaStep (publishCurr (publishWifi st uid top).1 uid curr).1
      uid curr).2.2 with
  | some ex =>
    exact List.mem_append.mpr (Or.inl (List.mem_append.mpr (Or.inl he)))
  | none =>
    exact List.mem_append.mpr (Or.inl (List.mem_append.mpr (Or.inl
      (List.mem_append.mpr (Or.inl he)))))

/-- C10.  `wifiQuality` and `wifiStrength` are read from the top level of
the primary parameters document rather than from `curr`, and are
republished in every cycle in which they are present with no
`999.0`-sentinel and no null filtering (`v` below is arbitrary, sentinel
and null included); and the payload of a value message is the empty
string for a null value and the string rendering of the value
otherwise. -/
theorem C10_wifi_keys_unfiltered (st : BridgeState) (uid : String)
    (top curr : List (String × PyVal)) (fe : FetchResult EditableDoc) :
    (∀ v, top.lookup "wifiQuality" = some v →
      Event.value uid "wifiQuality" v ∈
        (deviceBody st ⟨uid, FetchResult.ok ⟨top, curr⟩, fe⟩).2.1) ∧
    (∀ v, top.lookup "wifiStrength" = some v →
      Event.value uid "wifiStrength" v ∈
        (deviceBody st ⟨uid, FetchResult.ok ⟨top, curr⟩, fe⟩).2.1) ∧
    publishPayload PyVal.none = "" ∧
    (∀ v : PyVal, v.isNone = false → publishPayload v = pyStr v) := by
  have hsplit : (publishWifi st uid top).2 =
      (publishWifiKey st uid top "wifiQuality").2 ++
        ((publishWifiKey (publishWifiKey st uid top "wifiQuality").1 uid top
          "wifiStrength").2 ++ []) := rfl
  refine ⟨?_, ?_, rfl, ?_⟩
  · intro v hv
    refine wifi_mem_body st uid top curr fe _ ?_
    rw [hsplit]
    exact List.mem_append.mpr (Or.inl (publishWifiKey_value_mem st uid top _ v hv))
  · intro v hv
    refine wifi_mem_body st uid top curr fe _ ?_
    rw [hsplit]
    exact List.mem_append.mpr (Or.inr (List.mem_append.mpr (Or.inl
      (publishWifiKey_value_mem _ uid top _ v hv))))
  · intro v hv
    cases v with
    | none => exact absurd hv (by simp [PyVal.isNone])
    | bool b => rfl
    | num q => rfl
    | str s => rfl
    | list l => rfl

/-- C10 witness: a sentinel-valued `wifiQuality` (999) at the top level
is still published, and null payload rendering is the empty string. -/
theorem C10_witness :
    Event.value "U" "wifiQuality" (PyVal.num 999) ∈
      (deviceBody initState ⟨"U",
        FetchResult.ok ⟨[("wifiQuality", PyVal.num 999)], []⟩,
        FetchResult.otherErr⟩).2.1 :=
  (C10_wifi_keys_unfiltered initState "U" [("wifiQuality", PyVal.num 999)] []
    FetchResult.otherErr).1 (PyVal.num 999) rfl

/-- Decode failure of one information parameter: the structure probe of
the source (list of length at least 2; truthy flag; non-empty inner
array of non-empty arrays) fails.  A falsy visibility flag is a clean
skip, not a decode failure. -/
def infoMalformed : PyVal → Bool
  | PyVal.list (flag :: second :: _) =>
    if flag.truthy then
      match second with
      | PyVal.list (PyVal.list (_ :: _) :: _) => false
      | _ => true
    else false
  | _ => true

theorem infoEntryStep_malformed (st : BridgeState) (dev key : String) (data : PyVal)
    (h : infoMalformed data = true) :
    infoEntryStep st dev (key, data) = (st, []) := by
  unfold infoEntryStep
  cases hm : INFORMATION_PARAMS_MAP.lookup key with
  | none => rfl
  | some sk =>
    cases data with
    | list l =>
      match l with
      | [] => rfl
      | [_] => rfl
      | flag :: second :: rest =>
        by_cases ht : flag.truthy
        · simp only [if_pos ht]
          unfold infoMalformed at h
          simp only [if_pos ht] at h
          match second with
          | PyVal.none => rfl
          | PyVal.bool _ => rfl
          | PyVal.num _ => rfl
          | PyVal.str _ => rfl
          | PyVal.list [] => rfl
          | PyVal.list (PyVal.none :: _) => rfl
          | PyVal.list (PyVal.bool _ :: _) => rfl
          | PyVal.list (PyVal.num _ :: _) => rfl
          | PyVal.list (PyVal.str _ :: _) => rfl
          | PyVal.list (PyVal.list [] :: _) => rfl
          | PyVal.list (PyVal.list (v :: _) :: _) => exact Bool.noConfusion h
        · simp only [if_neg ht]
    | none => rfl
    | bool _ => rfl
    | num _ => rfl
    | str _ => rfl

theorem stepFold_skip {α : Type} (f : BridgeState → α → BridgeState × List Event)
    (x : α) (hx : ∀ s, f s x = (s, [])) (pre post : List α) :
    ∀ st, stepFold f st (pre ++ x :: post) = stepFold f st (pre ++ post) := by
  induction pre with
  | nil =>
    intro st
    simp only [List.nil_append, stepFold, hx st]
  | cons a as ih =>
    intro st
    simp only [List.cons_append, stepFold, List.append_eq]
    rw [ih (f st a).1]

/-- C4.  A malformed information parameter is skipped in isolation: the
whole device body behaves exactly as if the malformed entry were absent,
so neither the sibling information parameters of the same cycle nor any
earlier step of the cycle is affected, and no exception escapes the
decoder (the cycle function is total). -/
theorem C4_malformed_info_isolated (st : BridgeState) (uid : String)
    (fp : FetchResult DeviceParams) (data : List (String × ParamData))
    (pre post : List (String × PyVal)) (key : String) (bad : PyVal)
    (h : infoMalformed bad = true) :
    deviceBody st ⟨uid, fp, FetchResult.ok ⟨data, pre ++ (key, bad) :: post⟩⟩ =
      deviceBody st ⟨uid, fp, FetchResult.ok ⟨data, pre ++ post⟩⟩ := by
  have hed : ∀ s : BridgeState,
      editableStep s uid (FetchResult.ok ⟨data, pre ++ (key, bad) :: post⟩) =
        editableStep s uid (FetchResult.ok ⟨data, pre ++ post⟩) := by
    intro s
    unfold editableStep
    simp only
    rw [stepFold_skip _ _ (fun s2 => infoEntryStep_malformed s2 uid key bad h) pre post]
  cases fp with
  | econetErr => rfl
  | otherErr => rfl
  | ok params =>
    unfold deviceBody
    simp only
    cases hdl : (deltaStep (publishCurr (publishWifi st uid params.top).1 uid
        params.curr).1 uid params.curr).2.2 with
    | some e => rfl
    | none => rw [hed]

/-- C4 witness: a malformed `"22"` entry (visibility flag only, no value
block) between two well-formed siblings leaves the device body exactly
as if the malformed entry were absent. -/
theorem C4_witness :
    deviceBody initState ⟨"U", FetchResult.ok ⟨[], []⟩,
      FetchResult.ok ⟨[],
        [("21", PyVal.list [PyVal.bool true,
          PyVal.list [PyVal.list [PyVal.str "55.2"]]])] ++
        ("22", PyVal.list [PyVal.bool true]) ::
        [("26", PyVal.list [PyVal.bool true,
          PyVal.list [PyVal.list [PyVal.num 1450]]])]⟩⟩ =
    deviceBody initState ⟨"U", FetchResult.ok ⟨[], []⟩,
      FetchResult.ok ⟨[],
        [("21", PyVal.list [PyVal.bool true,
          PyVal.list [PyVal.list [PyVal.str "55.2"]]])] ++
        [("26", PyVal.list [PyVal.bool true,
          PyVal.list [PyVal.list [PyVal.num 1450]]])]⟩⟩ :=
  C4_malformed_info_isolated initState "U" (FetchResult.ok ⟨[], []⟩) []
    [("21", PyVal.list [PyVal.bool true, PyVal.list [PyVal.list [PyVal.str "55.2"]]])]
    [("26", PyVal.list [PyVal.bool true, PyVal.list [PyVal.list [PyVal.num 1450]]])]
    "22" (PyVal.list [PyVal.bool true]) rfl

/-- The decode relation of one information parameter as the
specification words it: the numeric-string key must be in the lookup
table; the structure must be an array of at least the two expected
elements whose first (the visibility flag) is truthy; the second element
must be a non-empty array whose first element is itself a non-empty
array; the published value is the innermost first element, numeric
strings coerced to numbers with the original retained on failure. -/
def specInfoDecode (key : String) (data : PyVal) : Option (String × PyVal) :=
  match INFORMATION_PARAMS_MAP.lookup key with
  | some sk =>
    match data with
    | PyVal.list (flag :: second :: _) =>
      if flag.truthy then
        match second with
        | PyVal.list (PyVal.list (v :: _) :: _) => some (sk, coerceValue v)
        | _ => Option.none
      else Option.none
    | _ => Option.none
  | Option.none => Option.none

/-- The value messages (only) of a trace. -/
def valueEvents (evs : List Event) : List Event :=
  evs.filter (fun e =>
    match e with
    | Event.value _ _ _ => true
    | _ => false)

theorem valueEvents_disc_val (s : BridgeState) (d k : String) (sd : SensorDef)
    (a b : String) (c : PyVal) :
    valueEvents ((publishHaDiscovery s d k sd).2 ++ [Event.value a b c]) =
      [Event.value a b c] := by
  unfold publishHaDiscovery
  by_cases h : k ∈ s.discovered
  · rw [if_pos h]; rfl
  · rw [if_neg h]; rfl

/-- C8.  One information parameter publishes exactly one value message —
on the mapped sensor key, carrying the coerced innermost value — when
the decode conditions of the specification hold, and publishes nothing
otherwise (unknown key, malformed shape, or falsy visibility flag); and
the specification's example decodes `"21" ↦ [true, [["55.2","0","x"]]]`
to the number 55.2 (= 276/5) on `info_compressor_hz`. -/
theorem C8_info_decode (st : BridgeState) (dev key : String) (data : PyVal) :
    valueEvents (infoEntryStep st dev (key, data)).2 =
      (match specInfoDecode key data with
        | some (sk, v) => [Event.value dev sk v]
        | Option.none => []) ∧
    specInfoDecode "21" (PyVal.list [PyVal.bool true,
        PyVal.list [PyVal.list [PyVal.str "55.2", PyVal.str "0", PyVal.str "x"]]]) =
      some ("info_compressor_hz", PyVal.num (276/5)) := by
  constructor
  · unfold infoEntryStep specInfoDecode
    cases hm : INFORMATION_PARAMS_MAP.lookup key with
    | none => rfl
    | some sk =>
      cases data with
      | list l =>
        match l with
        | [] => rfl
        | [_] => rfl
        | flag :: second :: rest =>
          by_cases ht : flag.truthy
          · simp only [if_pos ht]
            match second with
            | PyVal.none => rfl
            | PyVal.bool _ => rfl
            | PyVal.num _ => rfl
            | PyVal.str _ => rfl
            | PyVal.list [] => rfl
            | PyVal.list (PyVal.none :: _) => rfl
            | PyVal.list (PyVal.bool _ :: _) => rfl
            | PyVal.list (PyVal.num _ :: _) => rfl
            | PyVal.list (PyVal.str _ :: _) => rfl
            | PyVal.list (PyVal.list [] :: _) => rfl
            | PyVal.list (PyVal.list (v :: _) :: _) =>
              cases hdef : SENSOR_DEFINITIONS.lookup sk with
              | none => rfl
              | some sdef => exact valueEvents_disc_val st dev sk sdef dev sk (coerceValue v)
          · simp only [if_neg ht]
            rfl
      | none => rfl
      | bool _ => rfl
      | num _ => rfl
      | str _ => rfl
  · rw [show specInfoDecode "21" (PyVal.list [PyVal.bool true,
      PyVal.list [PyVal.list [PyVal.str "55.2", PyVal.str "0", PyVal.str "x"]]]) =
      some ("info_compressor_hz", coerceValue (PyVal.str "55.2")) from rfl]
    simp only [coerceValue]
    rw [show pyFloatOfString "55.2" =
      some (((55 : ℕ) : ℚ) + ((2 : ℕ) : ℚ) / (10 : ℚ) ^ (1 : ℕ)) from rfl]
    norm_num

/-! Facts about the slugification pipeline. -/

/-- No two adjacent underscores (the output shape of the two regex
substitutions in `slugify`). -/
def noDouble : List Char → Bool
  | [] => true
  | a :: rest => (!(a == '_' && rest.head? == some '_')) && noDouble rest

theorem alnum_ne_und {c : Char} (h : isLowerAlnum c = true) : c ≠ '_' := by
  intro he
  rw [he] at h
  exact absurd h (by decide)

theorem alnum_not_ws {c : Char} (h : isLowerAlnum c = true) : c.isWhitespace = false := by
  by_contra hw
  rw [Bool.not_eq_false] at hw
  simp only [Char.isWhitespace, Bool.or_eq_true, decide_eq_true_eq] at hw
  rcases hw with ((h1 | h1) | h1) | h1 <;> (subst h1; exact absurd h (by decide))

theorem charset_lower_fix {c : Char} (h : isLowerAlnum c = true ∨ c = '_') :
    pyLowerChar c = c := by
  rcases h with h | h
  · unfold pyLowerChar
    rw [if_neg]
    intro hAZ
    simp only [isLowerAlnum, Bool.or_eq_true, Bool.and_eq_true, decide_eq_true_eq] at h
    rcases h with ⟨h1, _⟩ | ⟨h1, h2⟩
    · exact absurd (le_trans h1 hAZ.2) (by decide)
    · exact absurd (le_trans hAZ.1 h2) (by decide)
  · subst h; rfl

theorem subNonAlnum_chars (l : List Char) :
    ∀ b, ∀ c ∈ subNonAlnum b l, isLowerAlnum c = true ∨ c = '_' := by
  induction l with
  | nil => intro b c hc; simp [subNonAlnum] at hc
  | cons a as ih =>
    intro b c hc
    by_cases ha : isLowerAlnum a
    · simp only [subNonAlnum, if_pos ha, List.mem_cons] at hc
      rcases hc with h | h
      · subst h; exact Or.inl ha
      · exact ih false c h
    · cases b with
      | true =>
        simp only [subNonAlnum, if_neg ha, if_pos rfl] at hc
        exact ih true c hc
      | false =>
        simp only [subNonAlnum, if_neg ha, Bool.false_eq_true, if_false,
          List.mem_cons] at hc
        rcases hc with h | h
        · subst h; exact Or.inr rfl
        · exact ih true c h

theorem subNonAlnum_head_true (l : List Char) :
    ∀ c, (subNonAlnum true l).head? = some c → isLowerAlnum c = true := by
  induction l with
  | nil => intro c h; simp [subNonAlnum] at h
  | cons a as ih =>
    intro c h
    by_cases ha : isLowerAlnum a
    · simp only [subNonAlnum, if_pos ha, List.head?_cons] at h
      injection h with h
      subst h
      exact ha
    · simp only [subNonAlnum, if_neg ha, if_pos rfl] at h
      exact ih c h

theorem subNonAlnum_noDouble (l : List Char) : ∀ b, noDouble (subNonAlnum b l) = true := by
  induction l with
  | nil => intro b; rfl
  | cons a as ih =>
    intro b
    by_cases ha : isLowerAlnum a
    · simp only [subNonAlnum, if_pos ha]
      have h1 : (a == '_') = false := by
        rw [beq_eq_false_iff_ne]
        exact alnum_ne_und ha
      simp [noDouble, h1, ih false]
    · cases b with
      | true =>
        simp only [subNonAlnum, if_neg ha, if_pos rfl]
        exact ih true
      | false =>
        simp only [subNonAlnum, if_neg ha, Bool.false_eq_true, if_false]
        have hh : ((subNonAlnum true as).head? == some '_') = false := by
          cases hh2 : (subNonAlnum true as).head? with
          | none => rfl
          | some c =>
            have hc := subNonAlnum_head_true as c hh2
            rw [show ((some c : Option Char) == some '_') = (c == '_') from rfl,
              beq_eq_false_iff_ne]
            exact alnum_ne_und hc
        simp [noDouble, hh, ih true]

theorem collapseUnd_id (l : List Char) (h : noDouble l = true) :
    collapseUnd false l = l ∧ ((l.head? ≠ some '_') → collapseUnd true l = l) := by
  induction l with
  | nil => exact ⟨rfl, fun _ => rfl⟩
  | cons a rest ih =>
    rw [show noDouble (a :: rest) =
      ((!(a == '_' && rest.head? == some '_')) && noDouble rest) from rfl,
      Bool.and_eq_true, Bool.not_eq_true'] at h
    obtain ⟨h1, h2⟩ := h
    have ihr := ih h2
    by_cases ha : a = '_'
    · have hr : rest.head? ≠ some '_' := by
        intro he
        rw [ha, he] at h1
        exact absurd h1 (by decide)
      constructor
      · simp only [collapseUnd, if_pos ha, Bool.false_eq_true, if_false]
        rw [ihr.2 hr, ha]
      · intro hh
        exact absurd (by rw [List.head?_cons, ha]) hh
    · constructor
      · simp only [collapseUnd, if_neg ha]
        rw [ihr.1]
      · intro _
        simp only [collapseUnd, if_neg ha]
        rw [ihr.1]

theorem collapseUnd_mem (l : List Char) :
    ∀ b, ∀ c ∈ collapseUnd b l, c ∈ l := by
  induction l with
  | nil => intro b c hc; simp [collapseUnd] at hc
  | cons a rest ih =>
    intro b c hc
    by_cases ha : a = '_'
    · cases b with
      | true =>
        simp only [collapseUnd, if_pos ha, if_pos rfl] at hc
        exact List.mem_cons_of_mem _ (ih true c hc)
      | false =>
        simp only [collapseUnd, if_pos ha, Bool.false_eq_true, if_false,
          List.mem_cons] at hc
        rcases hc with h | h
        · subst h; rw [ha]; exact List.mem_cons_self _ _
        · exact List.mem_cons_of_mem _ (ih true c h)
    · simp only [collapseUnd, if_neg ha, List.mem_cons] at hc
      rcases hc with h | h
      · subst h; exact List.mem_cons_self _ _
      · exact List.mem_cons_of_mem _ (ih false c h)

theorem rstripUnd_cons_of_ne_nil {cs : List Char} (c : Char) (h : rstripUnd cs ≠ []) :
    rstripUnd (c :: cs) = c :: rstripUnd cs := by
  show (match rstripUnd cs with
    | [] => if c = '_' then [] else [c]
    | r => c :: r) = c :: rstripUnd cs
  cases hr : rstripUnd cs with
  | nil => exact absurd hr h
  | cons d ds => rfl

theorem rstripUnd_take (l : List Char) : ∃ k, rstripUnd l = l.take k := by
  induction l with
  | nil => exact ⟨0, rfl⟩
  | cons c cs ih =>
    obtain ⟨k, hk⟩ := ih
    cases hr : rstripUnd cs with
    | nil =>
      by_cases hc : c = '_'
      · exact ⟨0, by simp [rstripUnd, hr, hc]⟩
      · exact ⟨1, by simp [rstripUnd, hr, hc]⟩
    | cons d ds =>
      refine ⟨k + 1, ?_⟩
      rw [rstripUnd_cons_of_ne_nil c (by rw [hr]; exact List.cons_ne_nil d ds)]
      rw [List.take_succ_cons, hk]

theorem rstripUnd_getLast (l : List Char) : (rstripUnd l).getLast? ≠ some '_' := by
  induction l with
  | nil => simp [rstripUnd]
  | cons c cs ih =>
    cases hr : rstripUnd cs with
    | nil =>
      by_cases hc : c = '_'
      · simp [rstripUnd, hr, hc]
      · simp only [rstripUnd, hr, if_neg hc, List.getLast?_singleton, ne_eq,
          Option.some.injEq]
        exact hc
    | cons d ds =>
      rw [rstripUnd_cons_of_ne_nil c (by rw [hr]; exact List.cons_ne_nil d ds)]
      rw [hr, List.getLast?_cons_cons, ← hr]
      exact ih

theorem rstripUnd_head (l : List Char) {c : Char}
    (h : (rstripUnd l).head? = some c) : l.head? = some c := by
  cases l with
  | nil => simp [rstripUnd] at h
  | cons a cs =>
    cases hr : rstripUnd cs with
    | nil =>
      by_cases hc : a = '_'
      · simp [rstripUnd, hr, hc] at h
      · simp only [rstripUnd, hr, if_neg hc, List.head?_cons] at h
        rw [List.head?_cons]
        exact h
    | cons d ds =>
      rw [rstripUnd_cons_of_ne_nil a (by rw [hr]; exact List.cons_ne_nil d ds)] at h
      rw [List.head?_cons] at h ⊢
      exact h

theorem rstripUnd_mem (l : List Char) : ∀ c ∈ rstripUnd l, c ∈ l := by
  obtain ⟨k, hk⟩ := rstripUnd_take l
  rw [hk]
  intro c hc
  exact List.take_subset k l hc

theorem take_head_cases (l : List Char) (k : ℕ) :
    (l.take k).head? = l.head? ∨ l.take k = [] := by
  cases k with
  | zero => exact Or.inr rfl
  | succ k2 =>
    cases l with
    | nil => exact Or.inr rfl
    | cons a as => exact Or.inl (by rw [List.take_succ_cons, List.head?_cons, List.head?_cons])

theorem noDouble_take (l : List Char) (h : noDouble l = true) :
    ∀ k, noDouble (l.take k) = true := by
  induction l with
  | nil =>
    intro k
    rw [List.take_nil]
    rfl
  | cons a rest ih =>
    intro k
    rw [show noDouble (a :: rest) =
      ((!(a == '_' && rest.head? == some '_')) && noDouble rest) from rfl,
      Bool.and_eq_true, Bool.not_eq_true'] at h
    have hsplit := h
    cases k with
    | zero => rfl
    | succ k2 =>
      rw [List.take_succ_cons]
      rcases take_head_cases rest k2 with hh | hh
      · simp [noDouble, hh, hsplit.1, ih hsplit.2 k2]
      · simp [noDouble, hh, ih hsplit.2 k2]

theorem rstripUnd_noDouble (l : List Char) (h : noDouble l = true) :
    noDouble (rstripUnd l) = true := by
  obtain ⟨k, hk⟩ := rstripUnd_take l
  rw [hk]
  exact noDouble_take l h k

theorem rstripUnd_id (l : List Char) (h : l.getLast? ≠ some '_') : rstripUnd l = l := by
  induction l with
  | nil => rfl
  | cons c cs ih =>
    cases hcs : cs with
    | nil =>
      subst hcs
      have hc : c ≠ '_' := by
        intro he
        exact h (by rw [List.getLast?_singleton, he])
      simp [rstripUnd, hc]
    | cons d ds =>
      subst hcs
      have h2 : (d :: ds).getLast? ≠ some '_' := by
        rw [List.getLast?_cons_cons] at h
        exact h
      have hcs2 : rstripUnd (d :: ds) = d :: ds := ih h2
      rw [rstripUnd_cons_of_ne_nil c (by rw [hcs2]; exact List.cons_ne_nil d ds), hcs2]

theorem dropWhile_head_not (p : Char → Bool) (l : List Char) :
    ∀ c, (l.dropWhile p).head? = some c → p c = false := by
  induction l with
  | nil => intro c h; simp at h
  | cons a as ih =>
    intro c h
    by_cases pa : p a
    · rw [List.dropWhile_cons_of_pos pa] at h
      exact ih c h
    · rw [List.dropWhile_cons_of_neg pa, List.head?_cons] at h
      injection h with h
      subst h
      exact Bool.eq_false_iff.mpr pa

theorem noDouble_dropWhile (p : Char → Bool) (l : List Char) (h : noDouble l = true) :
    noDouble (l.dropWhile p) = true := by
  induction l with
  | nil => exact h
  | cons a as ih =>
    rw [show noDouble (a :: as) =
      ((!(a == '_' && as.head? == some '_')) && noDouble as) from rfl,
      Bool.and_eq_true, Bool.not_eq_true'] at h
    by_cases pa : p a
    · rw [List.dropWhile_cons_of_pos pa]
      exact ih h.2
    · rw [List.dropWhile_cons_of_neg pa]
      rw [show noDouble (a :: as) =
        ((!(a == '_' && as.head? == some '_')) && noDouble as) from rfl,
        Bool.and_eq_true, Bool.not_eq_true']
      exact h

theorem mem_dropWhile (p : Char → Bool) (l : List Char) :
    ∀ c ∈ l.dropWhile p, c ∈ l := by
  induction l with
  | nil => intro c hc; simp at hc
  | cons a as ih =>
    intro c hc
    by_cases pa : p a
    · rw [List.dropWhile_cons_of_pos pa] at hc
      exact List.mem_cons_of_mem _ (ih c hc)
    · rw [List.dropWhile_cons_of_neg pa] at hc
      exact hc

theorem dropWhile_all_false (p : Char → Bool) (l : List Char)
    (h : ∀ c ∈ l, p c = false) : l.dropWhile p = l := by
  cases l with
  | nil => rfl
  | cons a as =>
    rw [List.dropWhile_cons_of_neg]
    rw [h a (List.mem_cons_self _ _)]
    exact Bool.false_ne_true

theorem stripUnd_head (l : List Char) : (stripUnd l).head? ≠ some '_' := by
  intro h
  have h2 := rstripUnd_head _ h
  have h3 := dropWhile_head_not _ l _ h2
  simp at h3

theorem stripUnd_getLast (l : List Char) : (stripUnd l).getLast? ≠ some '_' :=
  rstripUnd_getLast _

theorem stripUnd_noDouble (l : List Char) (h : noDouble l = true) :
    noDouble (stripUnd l) = true :=
  rstripUnd_noDouble _ (noDouble_dropWhile _ l h)

theorem stripUnd_mem (l : List Char) : ∀ c ∈ stripUnd l, c ∈ l := by
  intro c hc
  exact mem_dropWhile _ l c (rstripUnd_mem _ c hc)

theorem stripUnd_id (l : List Char) (h1 : l.head? ≠ some '_')
    (h2 : l.getLast? ≠ some '_') : stripUnd l = l := by
  unfold stripUnd
  have hd : l.dropWhile (fun c => c = '_') = l := by
    cases l with
    | nil => rfl
    | cons a as =>
      rw [List.dropWhile_cons_of_neg]
      simp only [decide_eq_true_eq]
      intro he
      exact h1 (by rw [List.head?_cons, he])
  rw [hd]
  exact rstripUnd_id l h2

theorem stripWs_id (l : List Char) (h : ∀ c ∈ l, Char.isWhitespace c = false) :
    stripWs l = l := by
  unfold stripWs
  rw [dropWhile_all_false _ _ h]
  rw [dropWhile_all_false _ _ (fun c hc => h c (List.mem_reverse.mp hc))]
  exact List.reverse_reverse l

theorem subNonAlnum_id (l : List Char)
    (hchar : ∀ c ∈ l, isLowerAlnum c = true ∨ c = '_')
    (hnd : noDouble l = true) :
    subNonAlnum false l = l ∧ ((l.head? ≠ some '_') → subNonAlnum true l = l) := by
  induction l with
  | nil => exact ⟨rfl, fun _ => rfl⟩
  | cons a rest ih =>
    rw [show noDouble (a :: rest) =
      ((!(a == '_' && rest.head? == some '_')) && noDouble rest) from rfl,
      Bool.and_eq_true, Bool.not_eq_true'] at hnd
    obtain ⟨h1, h2⟩ := hnd
    have hchar2 : ∀ c ∈ rest, isLowerAlnum c = true ∨ c = '_' :=
      fun c hc => hchar c (List.mem_cons_of_mem _ hc)
    have ihr := ih hchar2 h2
    by_cases ha : isLowerAlnum a
    · constructor
      · simp only [subNonAlnum, if_pos ha]
        rw [ihr.1]
      · intro _
        simp only [subNonAlnum, if_pos ha]
        rw [ihr.1]
    · have ha2 : a = '_' := by
        rcases hchar a (List.mem_cons_self _ _) with h | h
        · exact absurd h ha
        · exact h
      have hr : rest.head? ≠ some '_' := by
        intro he
        rw [ha2, he] at h1
        exact absurd h1 (by decide)
      constructor
      · simp only [subNonAlnum, if_neg ha, Bool.false_eq_true, if_false]
        rw [ihr.2 hr, ha2]
      · intro hh
        exact absurd (by rw [List.head?_cons, ha2]) hh

theorem map_lower_id (l : List Char) (h : ∀ c ∈ l, pyLowerChar c = c) :
    l.map pyLowerChar = l := by
  induction l with
  | nil => rfl
  | cons a as ih =>
    rw [List.map_cons, h a (List.mem_cons_self _ _),
      ih (fun c hc => h c (List.mem_cons_of_mem _ hc))]

/-- C6.  `slugify` output consists only of lower-case ASCII alphanumerics
and single underscore separators (never two adjacent), with no leading
and no trailing separator, and `slugify` is idempotent.  As a pure
function of its argument it matches the
specification's purity requirement by construction. -/
theorem C6_slugify_spec (x : String) :
    (slugify x).data.all (fun c => isLowerAlnum c || c == '_') = true ∧
    noDouble (slugify x).data = true ∧
    (slugify x).data.head? ≠ some '_' ∧
    (slugify x).data.getLast? ≠ some '_' ∧
    slugify (slugify x) = slugify x := by
  set A := subNonAlnum false (stripWs (x.data.map pyLowerChar)) with hA
  have hAchar : ∀ c ∈ A, isLowerAlnum c = true ∨ c = '_' := subNonAlnum_chars _ false
  have hAnd : noDouble A = true := subNonAlnum_noDouble _ false
  have hcoll : collapseUnd false A = A := (collapseUnd_id A hAnd).1
  have hy : (slugify x).data = stripUnd A := by
    show stripUnd (collapseUnd false A) = stripUnd A
    rw [hcoll]
  have hychar : ∀ c ∈ (slugify x).data, isLowerAlnum c = true ∨ c = '_' := by
    rw [hy]
    intro c hc
    exact hAchar c (stripUnd_mem A c hc)
  have hynd : noDouble (slugify x).data = true := by
    rw [hy]
    exact stripUnd_noDouble A hAnd
  have hyhead : (slugify x).data.head? ≠ some '_' := by
    rw [hy]
    exact stripUnd_head A
  have hylast : (slugify x).data.getLast? ≠ some '_' := by
    rw [hy]
    exact stripUnd_getLast A
  refine ⟨?_, hynd, hyhead, hylast, ?_⟩
  · rw [List.all_eq_true]
    intro c hc
    rcases hychar c hc with h | h
    · simp [h]
    · simp [h]
  · have hmap : (slugify x).data.map pyLowerChar = (slugify x).data :=
      map_lower_id _ (fun c hc => charset_lower_fix (hychar c hc))
    have hws : stripWs (slugify x).data = (slugify x).data :=
      stripWs_id _ (fun c hc => by
        rcases hychar c hc with h | h
        · exact alnum_not_ws h
        · rw [h]; decide)
    have hsub : subNonAlnum false (slugify x).data = (slugify x).data :=
      (subNonAlnum_id _ hychar hynd).1
    have hcol2 : collapseUnd false (slugify x).data = (slugify x).data :=
      (collapseUnd_id _ hynd).1
    have hstr : stripUnd (slugify x).data = (slugify x).data :=
      stripUnd_id _ hyhead hylast
    show String.mk (stripUnd (collapseUnd false (subNonAlnum false
      (stripWs ((slugify x).data.map pyLowerChar))))) = slugify x
    rw [hmap, hws, hsub, hcol2, hstr]

/-- C6 witness: the specification's shape properties hold for a concrete
messy input; `slugify " Heat Pump -- Flow! "` is `heat_pump_flow` and is
a fixed point of `slugify`. -/
theorem C6_witness :
    (slugify " Heat Pump -- Flow! ").data.all (fun c => isLowerAlnum c || c == '_') = true ∧
    noDouble (slugify " Heat Pump -- Flow! ").data = true ∧
    (slugify " Heat Pump -- Flow! ").data.head? ≠ some '_' ∧
    (slugify " Heat Pump -- Flow! ").data.getLast? ≠ some '_' ∧
    slugify (slugify " Heat Pump -- Flow! ") = slugify " Heat Pump -- Flow! " :=
  C6_slugify_spec " Heat Pump -- Flow! "
